import Mathlib

/-!
Shallow embedding of the airtime micro-loan backend.

Conventions of the embedding:
* timestamps are milliseconds as `Int` (JavaScript `Date.getTime()`);
* money and probabilities are `ℚ` (the source uses JS numbers; the claims
  are about the arithmetic, not float rounding);
* the process-wide `InMemoryStore` singleton becomes an explicit `Store`
  value threaded through every operation;
* a JS `Map` keyed by id becomes a list kept in insertion order, with
  `set` replacing in place (JS `Map.set` keeps the original position);
* fresh UUIDs and `new Date()` values are explicit parameters of each
  operation (the source draws them from the environment).
-/

namespace Airtime

/-- Offer lifecycle states, from `OfferStatusSchema` in schemas.ts. -/
inductive OfferStatus where
  | created
  | smsSent
  | linkOpened
  | accepted
  | declined
  | expired
  | disbursed
deriving DecidableEq, Repr

/-- Loan states, from `LoanSchema` in schemas.ts. -/
inductive LoanStatus where
  | pending
  | disbursed
  | repaid
  | overdue
deriving DecidableEq, Repr

/-- Ledger event types, from `LedgerEventTypeSchema` in schemas.ts. -/
inductive LedgerEventType where
  | offerCreated
  | smsSent
  | linkOpened
  | offerAccepted
  | offerDeclined
  | disbursalInitiated
  | disbursalCompleted
  | topupDetected
  | repaymentInitiated
  | repaymentCompleted
  | offerExpired
deriving DecidableEq, Repr

/-- `UserProfile` from schemas.ts (fields the backend reads). -/
structure UserProfile where
  msisdn : String
  tenure_days : ℚ
  avg_topup_amount : ℚ
  topup_frequency_30d : ℚ
  opt_out : Bool
  last_topup_date : Option Int
  total_topups_90d : ℚ
  on_time_repay_rate : ℚ
  recent_call_drops : ℚ
  device_type : String
  network_quality_score : ℚ
deriving DecidableEq, Repr

/-- `CallSessionEvent` from schemas.ts. -/
structure CallSession where
  event_type : String
  session_id : String
  msisdn : String
  start_time : Int
  end_time : Option Int
deriving DecidableEq, Repr

/-- `BalanceUpdateEvent` from schemas.ts. -/
structure BalanceUpdate where
  msisdn : String
  session_id : Option String
  balance : ℚ
  timestamp : Int
  consumption_rate_per_min : ℚ
deriving DecidableEq, Repr

/-- `TopUpEvent` from schemas.ts. -/
structure TopUp where
  msisdn : String
  amount : ℚ
  timestamp : Int
  channel : String
deriving DecidableEq, Repr

/-- `LowBalanceTriggerEvent` from schemas.ts. -/
structure LowBalanceTrigger where
  msisdn : String
  session_id : String
  balance : ℚ
  threshold : ℚ
  timestamp : Int
deriving DecidableEq, Repr

/-- `FeatureVector` from schemas.ts. -/
structure FeatureVector where
  msisdn : String
  timestamp : Int
  topup_frequency_30d : ℚ
  avg_topup_amount : ℚ
  last_topup_days_ago : Int
  total_topups_90d : ℚ
  tenure_days : ℚ
  on_time_repay_rate : ℚ
  total_loans : Nat
  total_repaid : Nat
  recent_call_drops : ℚ
  avg_call_duration_minutes : ℚ
  recent_low_balance_events : Nat
  device_type : String
  network_quality_score : ℚ
deriving DecidableEq, Repr

/-- One entry of `ModelDecision.contributions` before the importance map. -/
structure Contribution where
  feature : String
  contribution : ℚ
deriving DecidableEq, Repr

/-- One entry of `ModelDecision.contributions` as stored on the decision. -/
structure ContributionOut where
  feature_name : String
  contribution : ℚ
  importance : ℚ
deriving DecidableEq, Repr

/-- `ModelDecision.outputs` from schemas.ts. -/
structure ModelOutputs where
  p_repay : ℚ
  confidence : ℚ
  recommended_limit : ℚ
deriving DecidableEq, Repr

/-- `ModelDecision` from schemas.ts. -/
structure ModelDecision where
  decision_id : String
  model_name : String
  model_version : String
  timestamp : Int
  msisdn : String
  features_snapshot : FeatureVector
  outputs : ModelOutputs
  contributions : List ContributionOut
deriving DecidableEq, Repr

/-- `Offer.benefit_estimate` from schemas.ts. -/
structure BenefitEstimate where
  voice_minutes : Int
  data_days : Int
deriving DecidableEq, Repr

/-- `Offer` from schemas.ts, plus `context_reasons` added by the backend. -/
structure Offer where
  offer_id : String
  msisdn : String
  session_id : String
  amount : ℚ
  status : OfferStatus
  created_at : Int
  expires_at : Int
  reasons : List String
  model_decision_id : String
  consent_token : Option String
  benefit_estimate : Option BenefitEstimate
  context_reasons : List String
deriving DecidableEq, Repr

/-- `Loan` from schemas.ts. -/
structure Loan where
  loan_id : String
  offer_id : String
  msisdn : String
  amount : ℚ
  disbursed_at : Option Int
  repaid_at : Option Int
  status : LoanStatus
deriving DecidableEq, Repr

/-- The free-form `payload` record of a `LedgerEvent`: the fields any
call site of `ledgerService.logEvent` actually writes, each optional. -/
structure LedgerPayload where
  msisdn : Option String := none
  eligible : Option Bool := none
  reason : Option String := none
  amount : Option ℚ := none
  model_decision_id : Option String := none
  reasons : Option (List String) := none
  message_id : Option String := none
  previous_status : Option OfferStatus := none
  offer_id : Option String := none
  topup_amount : Option ℚ := none
  loan_amount : Option ℚ := none
  repaid_at : Option Int := none
deriving DecidableEq, Repr

/-- `LedgerEvent` from schemas.ts. -/
structure LedgerEvent where
  event_id : String
  type : LedgerEventType
  entity_id : String
  entity_type : String
  timestamp : Int
  payload : LedgerPayload
deriving DecidableEq, Repr

/-- `SmsMessage` from schemas.ts. -/
structure SmsMessage where
  message_id : String
  msisdn : String
  message : String
  offer_id : Option String
  sent_at : Option Int
  delivered : Bool
  delivery_failed : Bool
deriving DecidableEq, Repr

/-- `InMemoryStore`: each JS `Map` becomes an insertion-ordered list. -/
structure Store where
  users : List (String × UserProfile) := []
  callSessions : List (String × CallSession) := []
  balanceSnapshots : List (String × List BalanceUpdate) := []
  topUps : List (String × List TopUp) := []
  offers : List Offer := []
  loans : List Loan := []
  ledger : List LedgerEvent := []
  smsMessages : List SmsMessage := []
  modelDecisions : List ModelDecision := []
deriving DecidableEq, Repr

/-- JS `Map.set` on an insertion-ordered association list: replace in
place if the key exists, otherwise append. -/
def assocSet {α : Type} (k : String) (v : α) : List (String × α) → List (String × α)
  | [] => [(k, v)]
  | (k0, v0) :: rest =>
    if k0 = k then (k, v) :: rest else (k0, v0) :: assocSet k v rest

/-- JS `Map.get`. -/
def assocGet {α : Type} (k : String) : List (String × α) → Option α
  | [] => none
  | (k0, v0) :: rest => if k0 = k then some v0 else assocGet k rest

namespace Store

/-- `InMemoryStore.getUser`. -/
def getUser (s : Store) (msisdn : String) : Option UserProfile :=
  assocGet msisdn s.users

/-- `InMemoryStore.setUser`. -/
def setUser (s : Store) (msisdn : String) (profile : UserProfile) : Store :=
  { s with users := assocSet msisdn profile s.users }

/-- `InMemoryStore.getCallSession`. -/
def getCallSession (s : Store) (sessionId : String) : Option CallSession :=
  assocGet sessionId s.callSessions

/-- `InMemoryStore.setCallSession`. -/
def setCallSession (s : Store) (sessionId : String) (sess : CallSession) : Store :=
  { s with callSessions := assocSet sessionId sess s.callSessions }

/-- `InMemoryStore.addBalanceUpdate`. -/
def addBalanceUpdate (s : Store) (msisdn : String) (update : BalanceUpdate) : Store :=
  { s with balanceSnapshots :=
      assocSet msisdn ((assocGet msisdn s.balanceSnapshots).getD [] ++ [update]) s.balanceSnapshots }

/-- `InMemoryStore.getLatestBalance`. -/
def getLatestBalance (s : Store) (msisdn : String) : Option BalanceUpdate :=
  ((assocGet msisdn s.balanceSnapshots).getD []).getLast?

/-- `InMemoryStore.addTopUp`. -/
def addTopUp (s : Store) (msisdn : String) (t : TopUp) : Store :=
  { s with topUps := assocSet msisdn ((assocGet msisdn s.topUps).getD [] ++ [t]) s.topUps }

/-- `InMemoryStore.getTopUps`. -/
def getTopUps (s : Store) (msisdn : String) : List TopUp :=
  (assocGet msisdn s.topUps).getD []

/-- `InMemoryStore.getOffer`: lookup in the id-keyed offer map. -/
def getOffer (s : Store) (offerId : String) : Option Offer :=
  s.offers.find? (fun o => o.offer_id = offerId)

/-- `InMemoryStore.setOffer`: JS `Map.set` keyed by `offer_id`. -/
def setOffer (s : Store) (offer : Offer) : Store :=
  { s with offers :=
      if (s.offers.find? (fun o => o.offer_id = offer.offer_id)).isSome then
        s.offers.map (fun o => if o.offer_id = offer.offer_id then offer else o)
      else
        s.offers ++ [offer] }

/-- `InMemoryStore.getOffersByMsisdn`. -/
def getOffersByMsisdn (s : Store) (msisdn : String) : List Offer :=
  s.offers.filter (fun o => o.msisdn = msisdn)

/-- Status test used by `getActiveOfferForUser`:
`['created', 'sms_sent', 'link_opened'].includes(o.status)`. -/
def activeOfferStatus (st : OfferStatus) : Bool :=
  st = OfferStatus.created ∨ st = OfferStatus.smsSent ∨ st = OfferStatus.linkOpened

/-- `InMemoryStore.getActiveOfferForUser`; `now` is the `new Date()`
the source compares `expires_at` against. -/
def getActiveOfferForUser (s : Store) (msisdn : String) (now : Int) : Option Offer :=
  s.offers.find? (fun o =>
    o.msisdn = msisdn ∧ activeOfferStatus o.status ∧ now < o.expires_at)

/-- `InMemoryStore.getLoan`. -/
def getLoan (s : Store) (loanId : String) : Option Loan :=
  s.loans.find? (fun l => l.loan_id = loanId)

/-- `InMemoryStore.setLoan`: JS `Map.set` keyed by `loan_id`. -/
def setLoan (s : Store) (loan : Loan) : Store :=
  { s with loans :=
      if (s.loans.find? (fun l => l.loan_id = loan.loan_id)).isSome then
        s.loans.map (fun l => if l.loan_id = loan.loan_id then loan else l)
      else
        s.loans ++ [loan] }

/-- `InMemoryStore.getLoansByMsisdn`. -/
def getLoansByMsisdn (s : Store) (msisdn : String) : List Loan :=
  s.loans.filter (fun l => l.msisdn = msisdn)

/-- Status test used by `getActiveLoanForUser`:
`['pending', 'disbursed'].includes(l.status)`. -/
def activeLoanStatus (st : LoanStatus) : Bool :=
  st = LoanStatus.pending ∨ st = LoanStatus.disbursed

/-- `InMemoryStore.getActiveLoanForUser`. -/
def getActiveLoanForUser (s : Store) (msisdn : String) : Option Loan :=
  s.loans.find? (fun l => l.msisdn = msisdn ∧ activeLoanStatus l.status)

/-- `InMemoryStore.addLedgerEvent`. -/
def addLedgerEvent (s : Store) (event : LedgerEvent) : Store :=
  { s with ledger := s.ledger ++ [event] }

/-- `InMemoryStore.addSmsMessage`. -/
def addSmsMessage (s : Store) (m : SmsMessage) : Store :=
  { s with smsMessages :=
      if (s.smsMessages.find? (fun x => x.message_id = m.message_id)).isSome then
        s.smsMessages.map (fun x => if x.message_id = m.message_id then m else x)
      else
        s.smsMessages ++ [m] }

/-- `InMemoryStore.setModelDecision`. -/
def setModelDecision (s : Store) (d : ModelDecision) : Store :=
  { s with modelDecisions :=
      if (s.modelDecisions.find? (fun x => x.decision_id = d.decision_id)).isSome then
        s.modelDecisions.map (fun x => if x.decision_id = d.decision_id then d else x)
      else
        s.modelDecisions ++ [d] }

/-- `InMemoryStore.getModelDecision`. -/
def getModelDecision (s : Store) (decisionId : String) : Option ModelDecision :=
  s.modelDecisions.find? (fun d => d.decision_id = decisionId)

/-- `InMemoryStore.resetUserState` (persona re-seeding): deletes the
subscriber-scoped entities and filters the ledger by `payload.msisdn`. -/
def resetUserState (s : Store) (msisdn : String) : Store :=
  { s with
    callSessions := s.callSessions.filter (fun kv => ¬ kv.2.msisdn = msisdn)
    balanceSnapshots := s.balanceSnapshots.filter (fun kv => ¬ kv.1 = msisdn)
    topUps := s.topUps.filter (fun kv => ¬ kv.1 = msisdn)
    offers := s.offers.filter (fun o => ¬ o.msisdn = msisdn)
    loans := s.loans.filter (fun l => ¬ l.msisdn = msisdn)
    smsMessages := s.smsMessages.filter (fun m => ¬ m.msisdn = msisdn)
    ledger := s.ledger.filter (fun e => ¬ e.payload.msisdn = some msisdn) }

end Store

/-! ## Model Service (repaymentService.ts, second section: `ModelService`) -/

/-- Model name constant from modelService. -/
def MODEL_NAME : String := "airtime_risk_v1"

/-- Model version constant from modelService. -/
def MODEL_VERSION : String := "1.0.0"

/-- `AMOUNT_BUCKETS = [1, 5, 10]` (USD). -/
def AMOUNT_BUCKETS : List ℚ := [1, 5, 10]

/-- `msisdn.charCodeAt(0)`; the embedding returns 0 for the empty string
(the source would produce NaN there; no caller uses an empty msisdn). -/
def charCode0 (s : String) : Nat :=
  match s.data with
  | [] => 0
  | c :: _ => c.toNat

/-- JS `Math.abs`. -/
def jsAbs (q : ℚ) : ℚ := if q < 0 then -q else q

/-- JS `Math.min` on two numbers. -/
def jsMin (a b : ℚ) : ℚ := if a < b then a else b

/-- JS `Math.max` on two numbers. -/
def jsMax (a b : ℚ) : ℚ := if a < b then b else a

/-- JS `Math.max` on integers. -/
def jsMaxInt (a b : Int) : Int := if a < b then b else a

/-- Stable insertion used to embed the JS stable
`sort((a, b) => Math.abs(b.contribution) - Math.abs(a.contribution))`. -/
def insertByAbsDesc (x : Contribution) : List Contribution → List Contribution
  | [] => [x]
  | y :: ys =>
    if jsAbs y.contribution < jsAbs x.contribution then x :: y :: ys
    else y :: insertByAbsDesc x ys

/-- Stable sort by descending absolute contribution. -/
def sortByAbsDesc (l : List Contribution) : List Contribution :=
  l.foldl (fun acc x => insertByAbsDesc x acc) []

/-- `ModelService.calculateContributions`: the fixed ordered rule table,
then the stable sort by descending absolute magnitude. -/
def calculateContributions (features : FeatureVector) : List Contribution :=
  let c0 : List Contribution := []
  let c1 :=
    if 90 < features.tenure_days then c0 ++ [⟨"tenure_days", 3/20⟩]
    else if 30 < features.tenure_days then c0 ++ [⟨"tenure_days", 2/25⟩]
    else c0
  let c2 :=
    if (9:ℚ)/10 ≤ features.on_time_repay_rate then c1 ++ [⟨"on_time_repay_rate", 1/5⟩]
    else if (7:ℚ)/10 ≤ features.on_time_repay_rate then c1 ++ [⟨"on_time_repay_rate", 1/10⟩]
    else c1
  let c3 :=
    if 4 ≤ features.topup_frequency_30d then c2 ++ [⟨"topup_frequency_30d", 3/25⟩]
    else if 2 ≤ features.topup_frequency_30d then c2 ++ [⟨"topup_frequency_30d", 3/50⟩]
    else c2
  let c4 :=
    if 15 ≤ features.avg_topup_amount then c3 ++ [⟨"avg_topup_amount", 1/10⟩] else c3
  let c5 :=
    if 10 ≤ features.total_topups_90d then c4 ++ [⟨"total_topups_90d", 2/25⟩] else c4
  let c6 :=
    if (4:ℚ)/5 ≤ features.network_quality_score then c5 ++ [⟨"network_quality_score", 1/20⟩]
    else c5
  let c7 :=
    if features.device_type = "smartphone" then c6 ++ [⟨"device_type", 1/20⟩] else c6
  let c8 :=
    if 3 ≤ features.recent_call_drops then c7 ++ [⟨"recent_call_drops", -(3/20)⟩]
    else if 1 ≤ features.recent_call_drops then c7 ++ [⟨"recent_call_drops", -(2/25)⟩]
    else c7
  let c9 :=
    if 5 ≤ features.recent_low_balance_events then c8 ++ [⟨"recent_low_balance_events", -(1/10)⟩]
    else c8
  let c10 :=
    if 7 < features.last_topup_days_ago then c9 ++ [⟨"last_topup_days_ago", -(3/25)⟩]
    else c9
  let c11 :=
    if features.on_time_repay_rate < 7/10 then c10 ++ [⟨"on_time_repay_rate", -(3/20)⟩]
    else c10
  sortByAbsDesc c11

/-- `ModelService.calculateRepayProbability`: base 0.5 plus the summed
contributions plus the deterministic per-msisdn offset, clamped to [0,1]. -/
def calculateRepayProbability (features : FeatureVector)
    (contributions : List Contribution) : ℚ :=
  let totalContribution := contributions.foldl (fun sum c => sum + c.contribution) 0
  let noise : ℚ := ((charCode0 features.msisdn % 100 : Nat) : ℚ) / 1000
  let pRepay := 1/2 + totalContribution + noise - 1/20
  jsMax 0 (jsMin 1 pRepay)

/-- `ModelService.calculateConfidence` (its `contributions` argument is
unused in the source as well). -/
def calculateConfidence (features : FeatureVector)
    (_contributions : List Contribution) : ℚ :=
  let conf0 : ℚ := 1/2
  let conf1 := if 90 < features.tenure_days then conf0 + 1/5 else conf0
  let conf2 := if 0 < features.total_loans then conf1 + 3/20 else conf1
  let conf3 := if 3 ≤ features.topup_frequency_30d then conf2 + 1/10 else conf2
  let conf4 := if 5 ≤ features.total_topups_90d then conf3 + 1/20 else conf3
  jsMax (1/2) (jsMin (19/20) conf4)

/-- `ModelService.calculateRecommendedLimit`: risk-adjusted limit capped
at half the average top-up, then the largest bucket that fits
(`filter(b <= maxLimit).pop() || AMOUNT_BUCKETS[0]`). -/
def calculateRecommendedLimit (features : FeatureVector)
    (pRepay confidence : ℚ) : ℚ :=
  let riskAdjustedLimit := features.avg_topup_amount * pRepay * confidence
  let maxLimit := jsMin riskAdjustedLimit (features.avg_topup_amount * (1/2))
  ((AMOUNT_BUCKETS.filter (fun b => b ≤ maxLimit)).getLast?).getD 1

/-- `ModelService.predict`: the fresh `decision_id` (uuid) and the
`new Date()` timestamp are explicit parameters of the embedding. -/
def predict (features : FeatureVector) (decisionId : String) (now : Int) :
    ModelDecision :=
  let contributions := calculateContributions features
  let pRepay := calculateRepayProbability features contributions
  let confidence := calculateConfidence features contributions
  let recommendedLimit := calculateRecommendedLimit features pRepay confidence
  { decision_id := decisionId
    model_name := MODEL_NAME
    model_version := MODEL_VERSION
    timestamp := now
    msisdn := features.msisdn
    features_snapshot := features
    outputs := { p_repay := pRepay, confidence := confidence,
                 recommended_limit := recommendedLimit }
    contributions := contributions.map (fun c =>
      { feature_name := c.feature, contribution := c.contribution,
        importance := jsAbs c.contribution }) }

/-- `ModelService.generateUserReasons` (number formatting is plain
`toString` where the source interpolates JS numbers). -/
def generateUserReasons (decision : ModelDecision) : List String :=
  let topContributions := (decision.contributions.filter
    (fun c => 0 < c.contribution)).take 5
  let features := decision.features_snapshot
  let reasons := topContributions.foldl (fun acc contrib =>
    match contrib.feature_name with
    | "tenure_days" =>
      acc ++ ["You have been with us for " ++
        toString (Int.floor (features.tenure_days / 30)) ++ " months"]
    | "on_time_repay_rate" =>
      if (9:ℚ)/10 ≤ features.on_time_repay_rate then
        acc ++ ["Excellent repayment history"]
      else acc
    | "topup_frequency_30d" =>
      acc ++ ["You recharge " ++ toString features.topup_frequency_30d ++
        " times per month"]
    | "avg_topup_amount" =>
      acc ++ ["Your average recharge is $" ++ toString features.avg_topup_amount]
    | "total_topups_90d" =>
      acc ++ ["Active user with " ++ toString features.total_topups_90d ++
        " recharges in the last 3 months"]
    | "network_quality_score" =>
      acc ++ ["Good network connection history"]
    | "device_type" =>
      acc ++ ["Smartphone user"]
    | _ => acc) []
  let reasons := if reasons = [] then ["Based on your usage patterns"] else reasons
  reasons.take 5

/-! ## Feature Store (featureStore.ts) -/

/-- Milliseconds in a day. -/
def MS_IN_DAY : Int := 86400000

/-- `FeatureStoreMock.getFeatureVector`; `rand` is the `Math.random()`
draw feeding `avg_call_duration_minutes` (a value nothing downstream
reads). The source also fetches `store.getTopUps` without using it. -/
def getFeatureVector (s : Store) (msisdn : String) (now : Int) (rand : ℚ) :
    Option FeatureVector :=
  match s.getUser msisdn with
  | none => none
  | some user =>
    let loans := s.getLoansByMsisdn msisdn
    let recentOffers := (s.getOffersByMsisdn msisdn).filter
      (fun o => now - 30 * MS_IN_DAY < o.created_at)
    let lastTopupDaysAgo : Int :=
      match user.last_topup_date with
      | some d => (now - d).fdiv MS_IN_DAY
      | none => 999
    let totalLoans := loans.length
    let repaidLoans := (loans.filter (fun l => l.status = LoanStatus.repaid)).length
    some
      { msisdn := msisdn
        timestamp := now
        topup_frequency_30d := user.topup_frequency_30d
        avg_topup_amount := user.avg_topup_amount
        last_topup_days_ago := lastTopupDaysAgo
        total_topups_90d := user.total_topups_90d
        tenure_days := user.tenure_days
        on_time_repay_rate := user.on_time_repay_rate
        total_loans := totalLoans
        total_repaid := repaidLoans
        recent_call_drops := user.recent_call_drops
        avg_call_duration_minutes := 5 + rand * 10
        recent_low_balance_events := recentOffers.length
        device_type := user.device_type
        network_quality_score := user.network_quality_score }

/-! ## Eligibility Service (embedded after the trigger tests) -/

/-- `MIN_TENURE_DAYS`. -/
def MIN_TENURE_DAYS : ℚ := 30

/-- `MIN_P_REPAY`. -/
def MIN_P_REPAY : ℚ := 1/2

/-- `MIN_CONFIDENCE`. -/
def MIN_CONFIDENCE : ℚ := 3/5

/-- `ACTIVE_LOAN_COOLDOWN_MS` (24 h). -/
def ACTIVE_LOAN_COOLDOWN_MS : Int := 86400000

/-- `EligibilityResult` interface. -/
structure EligibilityResult where
  eligible : Bool
  modelDecision : Option ModelDecision
  reasons : List String
  approvedAmount : Option ℚ
  benefitEstimate : Option BenefitEstimate
deriving DecidableEq, Repr

/-- The `withinCooldown` expression inside `checkEligibility`:
`status === 'pending' || !disbursedAt || now - disbursedAt < cooldown`. -/
def loanWithinCooldown (l : Loan) (now : Int) : Bool :=
  l.status = LoanStatus.pending ||
    match l.disbursed_at with
    | none => true
    | some d => now - d < ACTIVE_LOAN_COOLDOWN_MS

/-- `EligibilityService.applyPolicyConstraints`: cap the recommended
limit at 50% of the average top-up, cap again at the average top-up,
reject below $1, then snap down to the largest bucket that fits. -/
def applyPolicyConstraints (modelDecision : ModelDecision)
    (user : UserProfile) : Option ℚ :=
  let limit0 := modelDecision.outputs.recommended_limit
  let maxExposure := user.avg_topup_amount * (1/2)
  let limit1 := jsMin limit0 maxExposure
  let limit2 := jsMin limit1 user.avg_topup_amount
  if limit2 < 1 then none
  else
    let buckets : List ℚ := [1, 5, 10]
    some (((buckets.filter (fun b => b ≤ limit2)).getLast?).getD 1)

/-- `EligibilityService.calculateBenefitEstimate`. -/
def calculateBenefitEstimate (amount : ℚ) (_features : FeatureVector) :
    BenefitEstimate :=
  { voice_minutes := Int.floor (amount / (1/10))
    data_days := Int.floor (amount / (1/2)) }

/-- `EligibilityService.checkEligibility`: the sequential gates in
source order. `rand` feeds the feature store; `decisionId`/`now` are the
fresh uuid and clock reads. The model decision is stored on the way. -/
def checkEligibility (s : Store) (msisdn : String) (rand : ℚ)
    (decisionId : String) (now : Int) : Store × EligibilityResult :=
  match s.getUser msisdn with
  | none =>
    (s, { eligible := false, modelDecision := none,
          reasons := ["User not found"], approvedAmount := none,
          benefitEstimate := none })
  | some user =>
    if user.opt_out then
      (s, { eligible := false, modelDecision := none,
            reasons := ["User has opted out"], approvedAmount := none,
            benefitEstimate := none })
    else if user.tenure_days < MIN_TENURE_DAYS then
      (s, { eligible := false, modelDecision := none,
            reasons := ["Minimum tenure requirement not met (30 days)"],
            approvedAmount := none, benefitEstimate := none })
    else
      let loanGateBlocks :=
        match s.getActiveLoanForUser msisdn with
        | some activeLoan =>
          Store.activeLoanStatus activeLoan.status &&
            loanWithinCooldown activeLoan now
        | none => false
      if loanGateBlocks then
        (s, { eligible := false, modelDecision := none,
              reasons := ["Active loan cooling down"], approvedAmount := none,
              benefitEstimate := none })
      else
        match getFeatureVector s msisdn now rand with
        | none =>
          (s, { eligible := false, modelDecision := none,
                reasons := ["Unable to generate features"],
                approvedAmount := none, benefitEstimate := none })
        | some features =>
          let modelDecision := predict features decisionId now
          let s1 := s.setModelDecision modelDecision
          if modelDecision.outputs.p_repay < MIN_P_REPAY then
            (s1, { eligible := false, modelDecision := some modelDecision,
                   reasons := ["Repayment probability too low"],
                   approvedAmount := none, benefitEstimate := none })
          else if modelDecision.outputs.confidence < MIN_CONFIDENCE then
            (s1, { eligible := false, modelDecision := some modelDecision,
                   reasons := ["Model confidence too low"],
                   approvedAmount := none, benefitEstimate := none })
          else
            match applyPolicyConstraints modelDecision user with
            | none =>
              (s1, { eligible := false, modelDecision := some modelDecision,
                     reasons := ["Policy constraints not met"],
                     approvedAmount := none, benefitEstimate := none })
            | some approvedAmount =>
              let reasons := generateUserReasons modelDecision
              let benefitEstimate := calculateBenefitEstimate approvedAmount features
              (s1, { eligible := true, modelDecision := some modelDecision,
                     reasons := reasons, approvedAmount := some approvedAmount,
                     benefitEstimate := some benefitEstimate })

/-! ## Insight Service (`buildOfferContextReasons`) -/

/-- JS `Math.round`: round half toward positive infinity. -/
def jsRound (q : ℚ) : Int := Int.floor (q + 1/2)

/-- `formatCurrency` (without the JS `toFixed(2)` float formatting). -/
def formatCurrency (value : ℚ) : String := "$" ++ toString value

/-- Deduplicate keeping first occurrences, as
`Array.from(new Set(reasons))` does. -/
def dedupKeepFirstAux : List String → List String → List String
  | [], _ => []
  | x :: xs, seen =>
    if x ∈ seen then dedupKeepFirstAux xs seen
    else x :: dedupKeepFirstAux xs (x :: seen)

/-- Entry point of the first-occurrence dedup. -/
def dedupKeepFirst (l : List String) : List String := dedupKeepFirstAux l []

/-- `buildOfferContextReasons` from insightService. -/
def buildOfferContextReasons (s : Store) (msisdn : String) (now : Int) :
    List String :=
  let user := s.getUser msisdn
  let loans := s.getLoansByMsisdn msisdn
  let repaidLoans := (loans.filter (fun l => l.status = LoanStatus.repaid)).length
  let totalLoans := loans.length
  let userTopUps := s.getTopUps msisdn
  let lastTopUp := userTopUps.getLast?
  let reasons1 : List String :=
    if 0 < totalLoans then
      if repaidLoans = totalLoans then
        ["Repaid " ++ toString repaidLoans ++ "/" ++ toString totalLoans ++
          " previous advances on time."]
      else
        ["Closed " ++ toString repaidLoans ++ " of " ++ toString totalLoans ++
          " previous advances without issues."]
    else
      ["Pilot advance to build credit history with this subscriber."]
  let reasons2 := reasons1 ++
    (match user with
     | some u =>
       ["Average recharge " ++ formatCurrency u.avg_topup_amount ++ " about " ++
         toString u.topup_frequency_30d ++ "x every 30 days."]
     | none => [])
  let reasons3 := reasons2 ++
    (match lastTopUp with
     | some t =>
       ["Last top-up " ++ formatCurrency t.amount ++ " about " ++
         toString (jsMaxInt 0 (jsRound (((now - t.timestamp : Int) : ℚ) / 86400000))) ++
         "d ago (" ++ t.channel ++ ")."]
     | none => [])
  let reasons4 := reasons3 ++
    (match user with
     | some u =>
       if (9:ℚ)/10 ≤ u.on_time_repay_rate then
         ["No late repayments recorded in recent history."]
       else []
     | none => [])
  let reasons5 := reasons4 ++
    (if (s.getActiveLoanForUser msisdn).isNone then
       ["No outstanding exposure today, so this amount fits within policy."]
     else [])
  (dedupKeepFirst reasons5).take 4

/-! ## Offer Service (offerService.ts) -/

/-- `OFFER_EXPIRY_MINUTES = 10`, in milliseconds. -/
def OFFER_EXPIRY_MS : Int := 600000

/-- `OfferService.getLedgerEventTypeForStatus`. -/
def getLedgerEventTypeForStatus (status : OfferStatus) : Option LedgerEventType :=
  match status with
  | OfferStatus.linkOpened => some LedgerEventType.linkOpened
  | OfferStatus.accepted => some LedgerEventType.offerAccepted
  | OfferStatus.declined => some LedgerEventType.offerDeclined
  | OfferStatus.expired => some LedgerEventType.offerExpired
  | _ => none

/-- `OfferService.updateOfferStatus`: mutates the stored offer object
first, then builds the ledger payload from the already-mutated object —
so `previous_status` in the payload reads the new status. `eventId` and
`now` stand for the uuid and `new Date()` of the ledger entry. -/
def updateOfferStatus (s : Store) (offerId : String) (status : OfferStatus)
    (eventId : String) (now : Int) : Store :=
  match s.getOffer offerId with
  | none => s
  | some offer =>
    let offer' := { offer with status := status }
    let s1 := s.setOffer offer'
    match getLedgerEventTypeForStatus status with
    | none => s1
    | some eventType =>
      s1.addLedgerEvent
        { event_id := eventId, type := eventType, entity_id := offerId,
          entity_type := "offer", timestamp := now,
          payload := { msisdn := some offer'.msisdn,
                       previous_status := some offer'.status } }

/-- `OfferService.getOfferByToken`: find by consent token; an offer past
`expires_at` is lazily transitioned to `expired` and treated as
not-found. -/
def getOfferByToken (s : Store) (token : String) (eventId : String)
    (now : Int) : Store × Option Offer :=
  match s.offers.find? (fun o => o.consent_token = some token) with
  | none => (s, none)
  | some offer =>
    if offer.expires_at < now then
      (updateOfferStatus s offer.offer_id OfferStatus.expired eventId now, none)
    else
      (s, some offer)

/-- `OfferService.acceptOffer`. -/
def acceptOffer (s : Store) (offerId : String) (eventId : String)
    (now : Int) : Store × Bool :=
  match s.getOffer offerId with
  | none => (s, false)
  | some offer =>
    if ¬ offer.status = OfferStatus.linkOpened ∧
        ¬ offer.status = OfferStatus.smsSent then
      (s, false)
    else if offer.expires_at < now then
      (updateOfferStatus s offerId OfferStatus.expired eventId now, false)
    else
      (updateOfferStatus s offerId OfferStatus.accepted eventId now, true)

/-- `OfferService.declineOffer` (note: no status or expiry check). -/
def declineOffer (s : Store) (offerId : String) (eventId : String)
    (now : Int) : Store × Bool :=
  match s.getOffer offerId with
  | none => (s, false)
  | some _ =>
    (updateOfferStatus s offerId OfferStatus.declined eventId now, true)

/-- `OfferService.markLinkOpened` (no source-state check either). -/
def markLinkOpenedById (s : Store) (offerId : String) (eventId : String)
    (now : Int) : Store :=
  updateOfferStatus s offerId OfferStatus.linkOpened eventId now

/-- `OfferService.createOffer`: eligibility first (logging the refusal),
then the idempotency check against an existing active offer, then offer
construction and the creation ledger entry. Fresh uuids (`decisionId`,
`offerId`, `token`, `eventId`) and the clock are explicit parameters. -/
def createOffer (s : Store) (msisdn sessionId : String) (rand : ℚ)
    (decisionId offerId token eventId : String) (now : Int) :
    Store × Option Offer :=
  let res := checkEligibility s msisdn rand decisionId now
  let s1 := res.1
  let eligibility := res.2
  if ¬ eligibility.eligible = true ∨ eligibility.approvedAmount = none ∨
      eligibility.modelDecision = none then
    (s1.addLedgerEvent
      { event_id := eventId, type := LedgerEventType.offerCreated,
        entity_id := sessionId, entity_type := "offer", timestamp := now,
        payload := { msisdn := some msisdn, eligible := some false,
                     reason := some (String.intercalate ", " eligibility.reasons) } },
     none)
  else
    match s1.getActiveOfferForUser msisdn now with
    | some existingOffer => (s1, some existingOffer)
    | none =>
      let offer : Offer :=
        { offer_id := offerId
          msisdn := msisdn
          session_id := sessionId
          amount := eligibility.approvedAmount.getD 0
          status := OfferStatus.created
          created_at := now
          expires_at := now + OFFER_EXPIRY_MS
          reasons := eligibility.reasons
          model_decision_id :=
            (eligibility.modelDecision.map (fun d => d.decision_id)).getD ""
          consent_token := some token
          benefit_estimate := eligibility.benefitEstimate
          context_reasons := buildOfferContextReasons s1 msisdn now }
      let s2 := s1.setOffer offer
      let s3 := s2.addLedgerEvent
        { event_id := eventId, type := LedgerEventType.offerCreated,
          entity_id := offerId, entity_type := "offer", timestamp := now,
          payload := { msisdn := some msisdn, amount := some offer.amount,
                       model_decision_id := some offer.model_decision_id,
                       reasons := some offer.reasons } }
      (s3, some offer)

/-! ## SMS Gateway Mock (`sendOfferSms`) -/

/-- The benefit text of the SMS body. -/
def generateBenefitText (offer : Offer) : String :=
  match offer.benefit_estimate with
  | none => ""
  | some b =>
    let parts : List String :=
      (if ¬ b.voice_minutes = 0 then ["~" ++ toString b.voice_minutes ++ " min"]
       else []) ++
      (if ¬ b.data_days = 0 then ["~" ++ toString b.data_days ++ " days data"]
       else [])
    if 0 < parts.length then "(" ++ String.intercalate " or " parts ++ ")" else ""

/-- `SmsGatewayMock.sendOfferSms`: records the message, logs `sms_sent`
to the ledger and moves the offer to `sms_sent`. The delayed delivery
flag flip (a `setTimeout`) is outside this synchronous step. -/
def sendOfferSms (s : Store) (offer : Offer) (messageId eventId : String)
    (now : Int) : Store × SmsMessage :=
  let consentUrl := "http://localhost:3000/consent?token=" ++
    offer.consent_token.getD ""
  let message := "Running low on balance. Want a free $" ++
    toString offer.amount ++
    " airtime advance to keep your call/data running? " ++
    generateBenefitText offer ++
    " Repays automatically on next top-up. Tap to review: " ++ consentUrl
  let sms : SmsMessage :=
    { message_id := messageId, msisdn := offer.msisdn, message := message,
      offer_id := some offer.offer_id, sent_at := some now,
      delivered := false, delivery_failed := false }
  let s1 := s.addSmsMessage sms
  let s2 := s1.addLedgerEvent
    { event_id := eventId, type := LedgerEventType.smsSent,
      entity_id := offer.offer_id, entity_type := "offer", timestamp := now,
      payload := { msisdn := some offer.msisdn,
                   message_id := some sms.message_id } }
  let s3 := updateOfferStatus s2 offer.offer_id OfferStatus.smsSent eventId now
  (s3, sms)

/-! ## Disbursal Service (disbursalService) -/

/-- `DisbursalService.applyAirtimeCredit`: a new balance sample equal to
the current balance plus the credited amount, with no session id. -/
def applyAirtimeCredit (s : Store) (msisdn : String) (amount : ℚ)
    (now : Int) : Store :=
  let currentBalance := ((s.getLatestBalance msisdn).map
    (fun b => b.balance)).getD 0
  s.addBalanceUpdate msisdn
    { msisdn := msisdn, session_id := none, balance := currentBalance + amount,
      timestamp := now, consumption_rate_per_min := 1/10 }

/-- `DisbursalService.disburseLoan`: legal only from `accepted`; creates
a pending loan, logs initiation, credits the balance, flips the loan to
`disbursed` and the offer to `disbursed`, logs completion. -/
def disburseLoan (s : Store) (offer : Offer) (loanId eventId1 eventId2 eventId3 : String)
    (now : Int) : Store × Option Loan :=
  if ¬ offer.status = OfferStatus.accepted then (s, none)
  else
    let loan : Loan :=
      { loan_id := loanId, offer_id := offer.offer_id, msisdn := offer.msisdn,
        amount := offer.amount, disbursed_at := none, repaid_at := none,
        status := LoanStatus.pending }
    let s1 := s.setLoan loan
    let s2 := s1.addLedgerEvent
      { event_id := eventId1, type := LedgerEventType.disbursalInitiated,
        entity_id := loan.loan_id, entity_type := "loan", timestamp := now,
        payload := { msisdn := some offer.msisdn, amount := some offer.amount,
                     offer_id := some offer.offer_id } }
    let s3 := applyAirtimeCredit s2 offer.msisdn offer.amount now
    let loan2 := { loan with disbursed_at := some now,
                             status := LoanStatus.disbursed }
    let s4 := s3.setLoan loan2
    let s5 := updateOfferStatus s4 offer.offer_id OfferStatus.disbursed eventId2 now
    let s6 := s5.addLedgerEvent
      { event_id := eventId3, type := LedgerEventType.disbursalCompleted,
        entity_id := loan.loan_id, entity_type := "loan", timestamp := now,
        payload := { msisdn := some offer.msisdn, amount := some offer.amount } }
    (s6, some loan2)

/-! ## Repayment Service (repaymentService.ts, first section) -/

/-- `RepaymentService.repayLoan`: logs initiation, nets the loan amount
out of the top-up, marks the loan repaid, appends the adjusted balance
sample and logs completion. -/
def repayLoan (s : Store) (loan : Loan) (topUpAmount : ℚ)
    (eventId1 eventId2 : String) (now : Int) : Store :=
  let s1 := s.addLedgerEvent
    { event_id := eventId1, type := LedgerEventType.repaymentInitiated,
      entity_id := loan.loan_id, entity_type := "loan", timestamp := now,
      payload := { msisdn := some loan.msisdn, loan_amount := some loan.amount,
                   topup_amount := some topUpAmount } }
  let remainingTopUp := topUpAmount - loan.amount
  let loan' := { loan with repaid_at := some now, status := LoanStatus.repaid }
  let s2 := s1.setLoan loan'
  let currentBalance := ((s2.getLatestBalance loan.msisdn).map
    (fun b => b.balance)).getD 0
  let newBalance := currentBalance + remainingTopUp
  let s3 := s2.addBalanceUpdate loan.msisdn
    { msisdn := loan.msisdn, session_id := none, balance := newBalance,
      timestamp := now, consumption_rate_per_min := 1/10 }
  s3.addLedgerEvent
    { event_id := eventId2, type := LedgerEventType.repaymentCompleted,
      entity_id := loan.loan_id, entity_type := "loan", timestamp := now,
      payload := { msisdn := some loan.msisdn, loan_amount := some loan.amount,
                   repaid_at := loan'.repaid_at } }

/-- `RepaymentService.processTopUp`: a no-op unless the subscriber's
active loan is `disbursed`; otherwise logs `topup_detected` and settles
that one loan through `repayLoan`. -/
def processTopUp (s : Store) (topUp : TopUp)
    (eventId0 eventId1 eventId2 : String) (now : Int) : Store :=
  match s.getActiveLoanForUser topUp.msisdn with
  | none => s
  | some activeLoan =>
    if ¬ activeLoan.status = LoanStatus.disbursed then s
    else
      let s1 := s.addLedgerEvent
        { event_id := eventId0, type := LedgerEventType.topupDetected,
          entity_id := activeLoan.loan_id, entity_type := "loan",
          timestamp := now,
          payload := { msisdn := some topUp.msisdn,
                       topup_amount := some topUp.amount,
                       loan_amount := some activeLoan.amount } }
      repayLoan s1 activeLoan topUp.amount eventId1 eventId2 now

/-! ## Trigger Service (two source copies differing only in constants,
so the embedding is parameterized by them) -/

/-- The three constants of a TriggerService copy: low-balance threshold,
debounce window (ms), cooldown window (ms). -/
structure TriggerConfig where
  threshold : ℚ
  debounceMs : Int
  cooldownMs : Int
deriving DecidableEq, Repr

/-- The constants of the first TriggerService copy. -/
def demoTriggerConfig : TriggerConfig :=
  { threshold := 1, debounceMs := 3000, cooldownMs := 60000 }

/-- The constants of the second TriggerService copy. -/
def defaultTriggerConfig : TriggerConfig :=
  { threshold := 1/2, debounceMs := 10000, cooldownMs := 300000 }

/-- `TriggerService.checkBalanceUpdate`: returns the updated
`lastTriggerTime` map together with the fired trigger, if any. The
source records the last-trigger time in the map before notifying its
listeners, so a fired event is observed against the returned map. `now`
is the `new Date()` that `getActiveOfferForUser` compares expiry with;
all other arithmetic uses the sample's own timestamp, as in the source. -/
def checkBalanceUpdate (cfg : TriggerConfig)
    (lastTriggerTime : List (String × Int)) (s : Store) (u : BalanceUpdate)
    (now : Int) : List (String × Int) × Option LowBalanceTrigger :=
  match u.session_id with
  | none => (lastTriggerTime, none)
  | some sessionId =>
    match s.getCallSession sessionId with
    | none => (lastTriggerTime, none)
    | some session =>
      if ¬ session.end_time = none then (lastTriggerTime, none)
      else if cfg.threshold < u.balance then (lastTriggerTime, none)
      else
        let lastTrigger := (assocGet u.msisdn lastTriggerTime).getD 0
        let timeSinceLastTrigger := u.timestamp - lastTrigger
        if timeSinceLastTrigger < cfg.debounceMs then (lastTriggerTime, none)
        else
          let cooldownBlocks : Bool :=
            match s.getActiveOfferForUser u.msisdn now with
            | some recentOffer =>
              decide (u.timestamp - recentOffer.created_at < cfg.cooldownMs)
            | none => false
          if cooldownBlocks then (lastTriggerTime, none)
          else
            let loanBlocks : Bool :=
              match s.getActiveLoanForUser u.msisdn with
              | some activeLoan =>
                decide (activeLoan.status = LoanStatus.disbursed)
              | none => false
            if loanBlocks then (lastTriggerTime, none)
            else
              (assocSet u.msisdn u.timestamp lastTriggerTime,
               some { msisdn := u.msisdn, session_id := sessionId,
                      balance := u.balance, threshold := cfg.threshold,
                      timestamp := u.timestamp })

/-! ## Orchestrator consent surface -/

/-- The typed result of `Orchestrator.handleConsent`. -/
structure ConsentResult where
  success : Bool
  loanId : Option String
  message : String
deriving DecidableEq, Repr

/-- `Orchestrator.markLinkOpened`: token lookup (with lazy expiry), then
the unguarded `link_opened` transition. -/
def orchestratorMarkLinkOpened (s : Store) (token : String)
    (eventId0 eventId1 : String) (now : Int) : Store :=
  let r := getOfferByToken s token eventId0 now
  match r.2 with
  | none => r.1
  | some offer => markLinkOpenedById r.1 offer.offer_id eventId1 now

/-- `Orchestrator.handleConsent`: token lookup, then accept (with
synchronous disbursal of the shared offer object, re-read from the
store after the accept mutation) or decline. -/
def handleConsent (s : Store) (token : String) (accept : Bool)
    (loanId eventId0 eventId1 eventId2 eventId3 eventId4 : String)
    (now : Int) : Store × ConsentResult :=
  let r := getOfferByToken s token eventId0 now
  match r.2 with
  | none =>
    (r.1, { success := false, loanId := none,
            message := "Offer not found or expired" })
  | some offer =>
    if accept then
      let ra := acceptOffer r.1 offer.offer_id eventId1 now
      if ¬ ra.2 = true then
        (ra.1, { success := false, loanId := none,
                 message := "Unable to accept offer" })
      else
        let offerUpd := (ra.1.getOffer offer.offer_id).getD offer
        let rd := disburseLoan ra.1 offerUpd loanId eventId2 eventId3 eventId4 now
        match rd.2 with
        | some loan =>
          (rd.1, { success := true, loanId := some loan.loan_id,
                   message := "Loan disbursed successfully" })
        | none =>
          (rd.1, { success := false, loanId := none,
                   message := "Disbursal failed" })
    else
      let rdcl := declineOffer r.1 offer.offer_id eventId1 now
      if rdcl.2 = true then
        (rdcl.1, { success := true, loanId := none,
                   message := "Offer declined" })
      else
        (rdcl.1, { success := false, loanId := none,
                   message := "Unable to decline offer" })

/-! ## Store lemmas -/

/-- Replacing the offer keyed by `o.offer_id` makes `o` the offer found
under that key, provided some offer with that key was present. -/
theorem find?_map_replace (o : Offer) :
    ∀ l : List Offer, (l.find? (fun x => x.offer_id = o.offer_id)).isSome →
      (l.map (fun x => if x.offer_id = o.offer_id then o else x)).find?
        (fun x => x.offer_id = o.offer_id) = some o := by
  intro l
  induction l with
  | nil => simp
  | cons y ys ih =>
    intro h
    by_cases hy : y.offer_id = o.offer_id
    · simp [List.find?_cons, hy]
    · have hnp : ¬ (fun x : Offer => decide (x.offer_id = o.offer_id)) y = true := by
        simp [hy]
      rw [@List.find?_cons_of_neg _ (fun x => decide (x.offer_id = o.offer_id)) y ys hnp] at h
      simp only [List.map_cons, if_neg hy]
      rw [@List.find?_cons_of_neg _ (fun x => decide (x.offer_id = o.offer_id)) y
        (ys.map (fun x => if x.offer_id = o.offer_id then o else x)) hnp]
      exact ih h

/-- `find?` over an appended list when the first part has no match. -/
theorem find?_append_none {α : Type} (p : α → Bool) :
    ∀ l1 l2 : List α, l1.find? p = none → (l1 ++ l2).find? p = l2.find? p := by
  intro l1 l2
  induction l1 with
  | nil => simp
  | cons y ys ih =>
    intro h
    by_cases hy : p y = true
    · rw [List.find?_cons_of_pos _ hy] at h
      exact absurd h (by simp)
    · rw [List.find?_cons_of_neg _ (by simpa using hy)] at h
      simpa [List.cons_append, List.find?_cons_of_neg _ (by simpa using hy)]
        using ih h

/-- After `setOffer o`, looking up `o.offer_id` yields `o`, whether the
key was present (replace in place) or not (append). -/
theorem getOffer_setOffer (s : Store) (o : Offer) :
    (s.setOffer o).getOffer o.offer_id = some o := by
  unfold Store.setOffer Store.getOffer
  by_cases h : (s.offers.find? (fun x => x.offer_id = o.offer_id)).isSome
  · simpa [h] using find?_map_replace o s.offers h
  · have hnone : s.offers.find? (fun x => x.offer_id = o.offer_id) = none := by
      cases hf : s.offers.find? (fun x => x.offer_id = o.offer_id) with
      | none => rfl
      | some v => rw [hf] at h; simp at h
    rw [if_neg (by simp [hnone])]
    rw [find?_append_none _ _ _ hnone]
    simp [List.find?_cons]

/-- `addLedgerEvent` appends exactly one entry. -/
theorem ledger_addLedgerEvent (s : Store) (e : LedgerEvent) :
    (s.addLedgerEvent e).ledger = s.ledger ++ [e] := rfl

/-- `setOffer` leaves the ledger untouched. -/
theorem ledger_setOffer (s : Store) (o : Offer) :
    (s.setOffer o).ledger = s.ledger := rfl

/-- `setLoan` leaves the ledger untouched. -/
theorem ledger_setLoan (s : Store) (l : Loan) :
    (s.setLoan l).ledger = s.ledger := rfl

/-- `addLedgerEvent` leaves the offers untouched. -/
theorem getOffer_addLedgerEvent (s : Store) (e : LedgerEvent) (k : String) :
    (s.addLedgerEvent e).getOffer k = s.getOffer k := rfl

/-- `setLoan` leaves the offers untouched. -/
theorem getOffer_setLoan (s : Store) (l : Loan) (k : String) :
    (s.setLoan l).getOffer k = s.getOffer k := rfl

/-- `addBalanceUpdate` leaves the offers untouched. -/
theorem getOffer_addBalanceUpdate (s : Store) (m : String) (u : BalanceUpdate)
    (k : String) : (s.addBalanceUpdate m u).getOffer k = s.getOffer k := rfl

/-! ## Claim C10 -/

/-- Claim C10: every offer status transition through `updateOfferStatus`
that logs a ledger entry (to `link_opened`, `accepted`, `declined` or
`expired`) appends an entry whose payload field `previous_status` equals
the offer's new post-transition status, because the stored offer object
is mutated before the payload is built from it. -/
theorem C10_previous_status_is_new_status
    (s : Store) (offerId : String) (status : OfferStatus) (eventId : String)
    (now : Int) (o : Offer) (ty : LedgerEventType)
    (hget : s.getOffer offerId = some o)
    (hty : getLedgerEventTypeForStatus status = some ty) :
    (updateOfferStatus s offerId status eventId now).ledger =
      s.ledger ++
        [{ event_id := eventId, type := ty, entity_id := offerId,
           entity_type := "offer", timestamp := now,
           payload := { msisdn := some o.msisdn,
                        previous_status := some status } }] := by
  unfold updateOfferStatus
  simp only [hget, hty]
  simp [Store.addLedgerEvent, Store.setOffer]

/-- Concrete offer for the C10 witness. -/
def c10Offer : Offer :=
  { offer_id := "o1", msisdn := "m", session_id := "s", amount := 5,
    status := OfferStatus.smsSent, created_at := 0, expires_at := 600000,
    reasons := [], model_decision_id := "d", consent_token := some "t",
    benefit_estimate := none, context_reasons := [] }

/-- Concrete store for the C10 witness. -/
def c10Store : Store := { offers := [c10Offer] }

/-- Witness for C10 at a concrete store: declining the stored `sms_sent`
offer appends an `offer_declined` entry whose `previous_status` payload
already reads `declined`. -/
theorem C10_previous_status_witness :
    c10Store.getOffer "o1" = some c10Offer ∧
    getLedgerEventTypeForStatus OfferStatus.declined =
      some LedgerEventType.offerDeclined ∧
    (updateOfferStatus c10Store "o1" OfferStatus.declined "e1" 50).ledger =
      c10Store.ledger ++
        [{ event_id := "e1", type := LedgerEventType.offerDeclined,
           entity_id := "o1", entity_type := "offer", timestamp := 50,
           payload := { msisdn := some "m",
                        previous_status := some OfferStatus.declined } }] :=
  ⟨rfl, rfl,
   by
    have h := C10_previous_status_is_new_status c10Store "o1" OfferStatus.declined
      "e1" 50 c10Offer LedgerEventType.offerDeclined rfl rfl
    simpa using h⟩

/-! ## Claim C4 -/

/-- Concrete expired offer for the C4 counterexample. -/
def c4Offer : Offer :=
  { offer_id := "o1", msisdn := "m", session_id := "s", amount := 5,
    status := OfferStatus.smsSent, created_at := 0, expires_at := 10,
    reasons := [], model_decision_id := "d", consent_token := some "t",
    benefit_estimate := none, context_reasons := [] }

/-- Concrete store for the C4 counterexample. -/
def c4Store : Store := { offers := [c4Offer] }

/-- Concrete expired offer still in `created`, for the accept half of
the C4 counterexample. -/
def c4OfferCreated : Offer :=
  { offer_id := "o1", msisdn := "m", session_id := "s", amount := 5,
    status := OfferStatus.created, created_at := 0, expires_at := 10,
    reasons := [], model_decision_id := "d", consent_token := some "t2",
    benefit_estimate := none, context_reasons := [] }

/-- Store holding the expired `created` offer. -/
def c4StoreCreated : Store := { offers := [c4OfferCreated] }

/-- Counterexample to claim C4 as stated, refuting both halves at time
20 on offers past `expires_at = 10`: accept on the expired offer still
in `created` fails but leaves it in `created` (no transition to
`expired`), and `declineOffer` on the expired `sms_sent` offer succeeds
(returns `true`) and moves it to `declined`, not `expired`. -/
theorem C4_counterexample_expired_accept_and_decline :
    (c4OfferCreated.expires_at < 20 ∧
     (acceptOffer c4StoreCreated "o1" "e1" 20).2 = false ∧
     ((acceptOffer c4StoreCreated "o1" "e1" 20).1.getOffer "o1").map
       Offer.status = some OfferStatus.created) ∧
    (c4Offer.expires_at < 20 ∧
     (declineOffer c4Store "o1" "e1" 20).2 = true ∧
     ((declineOffer c4Store "o1" "e1" 20).1.getOffer "o1").map Offer.status =
       some OfferStatus.declined ∧
     ¬ ((declineOffer c4Store "o1" "e1" 20).1.getOffer "o1").map Offer.status =
       some OfferStatus.expired) := by
  decide

/-- Through the token-based consent surface, both accept and decline on
an offer whose `expires_at` has passed fail and transition the offer to
`expired` (the expiry happens lazily at the token lookup). -/
theorem handleConsent_expired_fails_and_expires
    (s : Store) (token : String) (acceptAction : Bool)
    (loanId e0 e1 e2 e3 e4 : String) (now : Int) (o : Offer)
    (hfind : s.offers.find? (fun x => x.consent_token = some token) = some o)
    (hid : s.getOffer o.offer_id = some o)
    (hexp : o.expires_at < now) :
    (handleConsent s token acceptAction loanId e0 e1 e2 e3 e4 now).2.success
      = false ∧
    ((handleConsent s token acceptAction loanId e0 e1 e2 e3 e4 now).1.getOffer
        o.offer_id).map Offer.status = some OfferStatus.expired := by
  unfold handleConsent getOfferByToken
  simp only [hfind, if_pos hexp]
  refine ⟨by trivial, ?_⟩
  unfold updateOfferStatus
  simp only [hid, getLedgerEventTypeForStatus]
  rw [getOffer_addLedgerEvent]
  simp [getOffer_setOffer s { o with status := OfferStatus.expired }]

/-- Claim C4 as amended: on an offer whose `expires_at` has passed,
accept always fails, and it transitions the offer to `expired` exactly
when the offer is in an acceptable state (`sms_sent` or `link_opened`) —
from any other state accept fails with no state change at all; decline
(`OfferService.declineOffer`) performs no expiry check, so it succeeds
even on an expired offer and transitions it to `declined`; through the
token-based consent surface, both accept and decline on an expired
offer fail and transition it to `expired`, lazily at the token lookup. -/
theorem C4_expired_offer_accept_decline_behavior :
    (∀ (s : Store) (offerId eid : String) (now : Int) (o : Offer),
      s.getOffer offerId = some o → o.expires_at < now →
      (acceptOffer s offerId eid now).2 = false) ∧
    (∀ (s : Store) (offerId eid : String) (now : Int) (o : Offer),
      s.getOffer offerId = some o → o.expires_at < now →
      (o.status = OfferStatus.smsSent ∨ o.status = OfferStatus.linkOpened) →
      ((acceptOffer s offerId eid now).1.getOffer o.offer_id).map Offer.status
        = some OfferStatus.expired) ∧
    (∀ (s : Store) (offerId eid : String) (now : Int) (o : Offer),
      s.getOffer offerId = some o →
      ¬ o.status = OfferStatus.smsSent → ¬ o.status = OfferStatus.linkOpened →
      (acceptOffer s offerId eid now).1 = s ∧
      (acceptOffer s offerId eid now).2 = false) ∧
    (∀ (s : Store) (offerId eid : String) (now : Int) (o : Offer),
      s.getOffer offerId = some o →
      (declineOffer s offerId eid now).2 = true ∧
      ((declineOffer s offerId eid now).1.getOffer o.offer_id).map Offer.status
        = some OfferStatus.declined) ∧
    (∀ (s : Store) (token : String) (acceptAction : Bool)
      (loanId e0 e1 e2 e3 e4 : String) (now : Int) (o : Offer),
      s.offers.find? (fun x => x.consent_token = some token) = some o →
      s.getOffer o.offer_id = some o → o.expires_at < now →
      (handleConsent s token acceptAction loanId e0 e1 e2 e3 e4 now).2.success
        = false ∧
      ((handleConsent s token acceptAction loanId e0 e1 e2 e3 e4
          now).1.getOffer o.offer_id).map Offer.status
        = some OfferStatus.expired) := by
  refine ⟨?_, ?_, ?_, ?_, ?_⟩
  · intro s offerId eid now o hget hexp
    unfold acceptOffer
    rw [hget]
    dsimp only
    by_cases hst : ¬ o.status = OfferStatus.linkOpened ∧
        ¬ o.status = OfferStatus.smsSent
    · rw [if_pos hst]
    · rw [if_neg hst, if_pos hexp]
  · intro s offerId eid now o hget hexp hst
    unfold acceptOffer
    rw [hget]
    dsimp only
    rw [if_neg (by rcases hst with h | h <;> simp [h]), if_pos hexp]
    unfold updateOfferStatus
    simp only [hget, getLedgerEventTypeForStatus]
    rw [getOffer_addLedgerEvent]
    simp [getOffer_setOffer s { o with status := OfferStatus.expired }]
  · intro s offerId eid now o hget h1 h2
    unfold acceptOffer
    rw [hget]
    dsimp only
    rw [if_pos ⟨h2, h1⟩]
    exact ⟨rfl, rfl⟩
  · intro s offerId eid now o hget
    unfold declineOffer
    rw [hget]
    dsimp only
    refine ⟨rfl, ?_⟩
    unfold updateOfferStatus
    simp only [hget, getLedgerEventTypeForStatus]
    rw [getOffer_addLedgerEvent]
    simp [getOffer_setOffer s { o with status := OfferStatus.declined }]
  · intro s token acceptAction loanId e0 e1 e2 e3 e4 now o hfind hid hexp
    exact handleConsent_expired_fails_and_expires s token acceptAction loanId
      e0 e1 e2 e3 e4 now o hfind hid hexp

/-! ## Claim C2 -/

/-- The ledger of `s2` extends the ledger of `s1`: every entry of `s1`
is still present, in place, and only new entries were appended. -/
def LedgerGrows (s1 s2 : Store) : Prop :=
  ∃ t, s2.ledger = s1.ledger ++ t

/-- `LedgerGrows` is reflexive. -/
theorem ledgerGrows_refl (s : Store) : LedgerGrows s s :=
  ⟨[], (List.append_nil _).symm⟩

/-- `LedgerGrows` composes. -/
theorem ledgerGrows_trans {s1 s2 s3 : Store} (h1 : LedgerGrows s1 s2)
    (h2 : LedgerGrows s2 s3) : LedgerGrows s1 s3 := by
  obtain ⟨t1, h1⟩ := h1
  obtain ⟨t2, h2⟩ := h2
  exact ⟨t1 ++ t2, by rw [h2, h1, List.append_assoc]⟩

/-- A store step that leaves the ledger untouched grows it trivially. -/
theorem ledgerGrows_of_eq {s1 s2 : Store} (h : s2.ledger = s1.ledger) :
    LedgerGrows s1 s2 :=
  ⟨[], by rw [h, List.append_nil]⟩

/-- One append grows the ledger. -/
theorem ledgerGrows_addLedgerEvent (s : Store) (e : LedgerEvent) :
    LedgerGrows s (s.addLedgerEvent e) :=
  ⟨[e], rfl⟩

/-- Appending one more entry preserves growth. -/
theorem LedgerGrows.push {s1 s2 : Store} (h : LedgerGrows s1 s2)
    (e : LedgerEvent) : LedgerGrows s1 (s2.addLedgerEvent e) := by
  obtain ⟨t, ht⟩ := h
  exact ⟨t ++ [e], by simp [Store.addLedgerEvent, ht]⟩

/-- Growth transported along a ledger-preserving step. -/
theorem LedgerGrows.congr {s1 s2 s3 : Store} (h : LedgerGrows s1 s2)
    (he : s3.ledger = s2.ledger) : LedgerGrows s1 s3 := by
  obtain ⟨t, ht⟩ := h
  exact ⟨t, by rw [he, ht]⟩

/-- `updateOfferStatus` only appends to the ledger. -/
theorem ledgerGrows_updateOfferStatus (s : Store) (offerId : String)
    (status : OfferStatus) (eventId : String) (now : Int) :
    LedgerGrows s (updateOfferStatus s offerId status eventId now) := by
  unfold updateOfferStatus
  cases hget : s.getOffer offerId with
  | none => exact ledgerGrows_refl s
  | some o =>
    cases hty : getLedgerEventTypeForStatus status with
    | none => exact ledgerGrows_of_eq rfl
    | some ty => exact ⟨_, rfl⟩

/-- `getOfferByToken` (lazy expiry included) only appends to the ledger. -/
theorem ledgerGrows_getOfferByToken (s : Store) (token eventId : String)
    (now : Int) : LedgerGrows s (getOfferByToken s token eventId now).1 := by
  unfold getOfferByToken
  cases hf : s.offers.find? (fun o => o.consent_token = some token) with
  | none => exact ledgerGrows_refl s
  | some o =>
    by_cases hexp : o.expires_at < now
    · simpa [hexp] using ledgerGrows_updateOfferStatus s o.offer_id
        OfferStatus.expired eventId now
    · simpa [hexp] using ledgerGrows_refl s

/-- `acceptOffer` only appends to the ledger. -/
theorem ledgerGrows_acceptOffer (s : Store) (offerId eventId : String)
    (now : Int) : LedgerGrows s (acceptOffer s offerId eventId now).1 := by
  unfold acceptOffer
  cases hget : s.getOffer offerId with
  | none => exact ledgerGrows_refl s
  | some o =>
    by_cases hst : ¬ o.status = OfferStatus.linkOpened ∧
        ¬ o.status = OfferStatus.smsSent
    · simpa [hst] using ledgerGrows_refl s
    · by_cases hexp : o.expires_at < now
      · simpa [hst, hexp] using ledgerGrows_updateOfferStatus s offerId
          OfferStatus.expired eventId now
      · simpa [hst, hexp] using ledgerGrows_updateOfferStatus s offerId
          OfferStatus.accepted eventId now

/-- `declineOffer` only appends to the ledger. -/
theorem ledgerGrows_declineOffer (s : Store) (offerId eventId : String)
    (now : Int) : LedgerGrows s (declineOffer s offerId eventId now).1 := by
  unfold declineOffer
  cases hget : s.getOffer offerId with
  | none => exact ledgerGrows_refl s
  | some o =>
    exact ledgerGrows_updateOfferStatus s offerId OfferStatus.declined eventId now

/-- `sendOfferSms` only appends to the ledger. -/
theorem ledgerGrows_sendOfferSms (s : Store) (offer : Offer)
    (messageId eventId : String) (now : Int) :
    LedgerGrows s (sendOfferSms s offer messageId eventId now).1 := by
  unfold sendOfferSms
  exact ledgerGrows_trans ⟨_, rfl⟩
    (ledgerGrows_updateOfferStatus _ offer.offer_id OfferStatus.smsSent eventId now)

/-- `disburseLoan` only appends to the ledger. -/
theorem ledgerGrows_disburseLoan (s : Store) (offer : Offer)
    (loanId e1 e2 e3 : String) (now : Int) :
    LedgerGrows s (disburseLoan s offer loanId e1 e2 e3 now).1 := by
  unfold disburseLoan
  by_cases hst : ¬ offer.status = OfferStatus.accepted
  · simpa [hst] using ledgerGrows_refl s
  · simp only [hst, if_false, if_true]
    refine ledgerGrows_trans (ledgerGrows_trans ?_
      (ledgerGrows_updateOfferStatus _ offer.offer_id OfferStatus.disbursed e2 now))
      ⟨_, rfl⟩
    exact ⟨_, rfl⟩

/-- `repayLoan` only appends to the ledger. -/
theorem ledgerGrows_repayLoan (s : Store) (loan : Loan) (topUpAmount : ℚ)
    (e1 e2 : String) (now : Int) :
    LedgerGrows s (repayLoan s loan topUpAmount e1 e2 now) := by
  unfold repayLoan
  exact LedgerGrows.push (LedgerGrows.congr (ledgerGrows_addLedgerEvent s _) rfl) _

/-- `processTopUp` only appends to the ledger. -/
theorem ledgerGrows_processTopUp (s : Store) (topUp : TopUp)
    (e0 e1 e2 : String) (now : Int) :
    LedgerGrows s (processTopUp s topUp e0 e1 e2 now) := by
  unfold processTopUp
  cases hl : s.getActiveLoanForUser topUp.msisdn with
  | none => exact ledgerGrows_refl s
  | some l =>
    by_cases hst : ¬ l.status = LoanStatus.disbursed
    · simpa [hst] using ledgerGrows_refl s
    · simp only [hst, if_false, if_true]
      exact ledgerGrows_trans ⟨_, rfl⟩ (ledgerGrows_repayLoan _ l topUp.amount e1 e2 now)

/-- `checkEligibility` never touches the ledger. -/
theorem ledger_checkEligibility (s : Store) (m : String) (rand : ℚ)
    (d : String) (now : Int) :
    (checkEligibility s m rand d now).1.ledger = s.ledger := by
  unfold checkEligibility
  dsimp only
  repeat' split
  all_goals rfl

/-- `createOffer` only appends to the ledger. -/
theorem ledgerGrows_createOffer (s : Store) (msisdn sessionId : String)
    (rand : ℚ) (decisionId offerId token eventId : String) (now : Int) :
    LedgerGrows s
      (createOffer s msisdn sessionId rand decisionId offerId token eventId now).1 := by
  unfold createOffer
  have helig := ledger_checkEligibility s msisdn rand decisionId now
  by_cases hfail : ¬ (checkEligibility s msisdn rand decisionId now).2.eligible = true ∨
      (checkEligibility s msisdn rand decisionId now).2.approvedAmount = none ∨
      (checkEligibility s msisdn rand decisionId now).2.modelDecision = none
  · simp only [hfail, if_true]
    exact LedgerGrows.push (ledgerGrows_of_eq helig) _
  · simp only [hfail, if_false]
    cases hact : (checkEligibility s msisdn rand decisionId now).1.getActiveOfferForUser
        msisdn now with
    | some existing => exact ledgerGrows_of_eq helig
    | none =>
      exact LedgerGrows.push (LedgerGrows.congr (ledgerGrows_of_eq helig) rfl) _

/-- `orchestratorMarkLinkOpened` only appends to the ledger. -/
theorem ledgerGrows_orchestratorMarkLinkOpened (s : Store)
    (token e0 e1 : String) (now : Int) :
    LedgerGrows s (orchestratorMarkLinkOpened s token e0 e1 now) := by
  unfold orchestratorMarkLinkOpened
  dsimp only
  cases hr : (getOfferByToken s token e0 now).2 with
  | none => exact ledgerGrows_getOfferByToken s token e0 now
  | some o =>
    exact ledgerGrows_trans (ledgerGrows_getOfferByToken s token e0 now)
      (ledgerGrows_updateOfferStatus _ o.offer_id OfferStatus.linkOpened e1 now)

/-- `handleConsent` only appends to the ledger. -/
theorem ledgerGrows_handleConsent (s : Store) (token : String) (a : Bool)
    (loanId e0 e1 e2 e3 e4 : String) (now : Int) :
    LedgerGrows s (handleConsent s token a loanId e0 e1 e2 e3 e4 now).1 := by
  unfold handleConsent
  dsimp only
  have h0 := ledgerGrows_getOfferByToken s token e0 now
  cases hr : (getOfferByToken s token e0 now).2 with
  | none => exact h0
  | some o =>
    by_cases ha : a = true
    · simp only [ha, if_true]
      have h1 := ledgerGrows_acceptOffer (getOfferByToken s token e0 now).1
        o.offer_id e1 now
      by_cases hacc : ¬ (acceptOffer (getOfferByToken s token e0 now).1
          o.offer_id e1 now).2 = true
      · simpa [hacc] using ledgerGrows_trans h0 h1
      · simp only [hacc, if_false, if_true]
        have h2 := ledgerGrows_disburseLoan
          (acceptOffer (getOfferByToken s token e0 now).1 o.offer_id e1 now).1
          (((acceptOffer (getOfferByToken s token e0 now).1 o.offer_id e1 now).1.getOffer
            o.offer_id).getD o) loanId e2 e3 e4 now
        cases hd : (disburseLoan
            (acceptOffer (getOfferByToken s token e0 now).1 o.offer_id e1 now).1
            (((acceptOffer (getOfferByToken s token e0 now).1 o.offer_id e1 now).1.getOffer
              o.offer_id).getD o) loanId e2 e3 e4 now).2 with
        | some loan => exact ledgerGrows_trans h0 (ledgerGrows_trans h1 h2)
        | none => exact ledgerGrows_trans h0 (ledgerGrows_trans h1 h2)
    · simp only [ha, if_false]
      have h1 := ledgerGrows_declineOffer (getOfferByToken s token e0 now).1
        o.offer_id e1 now
      by_cases hdcl : (declineOffer (getOfferByToken s token e0 now).1
          o.offer_id e1 now).2 = true
      · simpa [hdcl] using ledgerGrows_trans h0 h1
      · simpa [hdcl] using ledgerGrows_trans h0 h1

/-- Concrete ledger entry for the C2 counterexample; its payload names
subscriber "a". -/
def c2Event : LedgerEvent :=
  { event_id := "e1", type := LedgerEventType.offerCreated, entity_id := "x",
    entity_type := "offer", timestamp := 0,
    payload := { msisdn := some "a" } }

/-- Counterexample to claim C2 as stated: append one entry whose payload
names subscriber "a", then run `resetUserState "a"` (the persona re-seed
operation): the previously appended entry is gone from the ledger. -/
theorem C2_counterexample_reset_removes_entries :
    c2Event ∈ (Store.addLedgerEvent {} c2Event).ledger ∧
    ¬ c2Event ∈ ((Store.addLedgerEvent {} c2Event).resetUserState "a").ledger := by
  decide

/-- Claim C2 as amended: `addLedgerEvent` appends exactly one entry and
nothing mutates an existing entry; every offer, consent, SMS, disbursal
and repayment operation leaves the prior ledger as a prefix, so along
those operations the set of ledger entries only grows. The exception is
`resetUserState` (persona re-seeding), which removes exactly the entries
whose payload `msisdn` equals the reset subscriber. -/
theorem C2_ledger_append_only_except_reset :
    (∀ (s : Store) (e : LedgerEvent),
      (s.addLedgerEvent e).ledger = s.ledger ++ [e]) ∧
    (∀ (s : Store) (m : String),
      (s.resetUserState m).ledger =
        s.ledger.filter (fun e => ¬ e.payload.msisdn = some m)) ∧
    (∀ (s : Store) (offerId : String) (st : OfferStatus) (e : String) (now : Int),
      LedgerGrows s (updateOfferStatus s offerId st e now)) ∧
    (∀ (s : Store) (token e : String) (now : Int),
      LedgerGrows s (getOfferByToken s token e now).1) ∧
    (∀ (s : Store) (offerId e : String) (now : Int),
      LedgerGrows s (acceptOffer s offerId e now).1) ∧
    (∀ (s : Store) (offerId e : String) (now : Int),
      LedgerGrows s (declineOffer s offerId e now).1) ∧
    (∀ (s : Store) (o : Offer) (mId e : String) (now : Int),
      LedgerGrows s (sendOfferSms s o mId e now).1) ∧
    (∀ (s : Store) (o : Offer) (loanId e1 e2 e3 : String) (now : Int),
      LedgerGrows s (disburseLoan s o loanId e1 e2 e3 now).1) ∧
    (∀ (s : Store) (t : TopUp) (e0 e1 e2 : String) (now : Int),
      LedgerGrows s (processTopUp s t e0 e1 e2 now)) ∧
    (∀ (s : Store) (m sid : String) (rand : ℚ) (d oid tok e : String) (now : Int),
      LedgerGrows s (createOffer s m sid rand d oid tok e now).1) ∧
    (∀ (s : Store) (token e0 e1 : String) (now : Int),
      LedgerGrows s (orchestratorMarkLinkOpened s token e0 e1 now)) ∧
    (∀ (s : Store) (token : String) (a : Bool) (loanId e0 e1 e2 e3 e4 : String)
      (now : Int),
      LedgerGrows s (handleConsent s token a loanId e0 e1 e2 e3 e4 now).1) :=
  ⟨ledger_addLedgerEvent, fun _ _ => rfl, ledgerGrows_updateOfferStatus,
   ledgerGrows_getOfferByToken, ledgerGrows_acceptOffer, ledgerGrows_declineOffer,
   fun s o mId e now => ledgerGrows_sendOfferSms s o mId e now,
   ledgerGrows_disburseLoan, ledgerGrows_processTopUp, ledgerGrows_createOffer,
   ledgerGrows_orchestratorMarkLinkOpened, ledgerGrows_handleConsent⟩

/-! ## Claim C7 -/

/-- Claim C7: the Scoring Model is deterministic: two `predict` runs on
one identical FeatureVector agree exactly on the decision outputs
(`p_repay`, `confidence`, `recommended_limit`) and on the ordering and
content of the contribution list, whatever fresh decision ids and
timestamps the two runs draw — the per-subscriber offset inside
`p_repay` is a pure function of `features.msisdn`. -/
theorem C7_predict_deterministic (f : FeatureVector) (id1 id2 : String)
    (t1 t2 : Int) :
    (predict f id1 t1).outputs = (predict f id2 t2).outputs ∧
    (predict f id1 t1).contributions = (predict f id2 t2).contributions :=
  ⟨rfl, rfl⟩

/-! ## Claim C9 -/

/-- Every `checkEligibility` result with `eligible = true` carries an
approved amount and a model decision (the source guard in `createOffer`
re-checks them). -/
theorem checkEligibility_eligible_shape (s : Store) (m : String) (rand : ℚ)
    (d : String) (now : Int) :
    (checkEligibility s m rand d now).2.eligible = true →
    ¬ (checkEligibility s m rand d now).2.approvedAmount = none ∧
    ¬ (checkEligibility s m rand d now).2.modelDecision = none := by
  unfold checkEligibility
  dsimp only
  repeat' split
  all_goals simp

/-- `checkEligibility` never changes the offers. -/
theorem offers_checkEligibility (s : Store) (m : String) (rand : ℚ)
    (d : String) (now : Int) :
    (checkEligibility s m rand d now).1.offers = s.offers := by
  unfold checkEligibility
  dsimp only
  repeat' split
  all_goals rfl

/-- Opted-out user holding a still-active offer, for the C9
counterexample. -/
def c9User : UserProfile :=
  { msisdn := "a", tenure_days := 240, avg_topup_amount := 20,
    topup_frequency_30d := 4, opt_out := true, last_topup_date := some 0,
    total_topups_90d := 10, on_time_repay_rate := 1, recent_call_drops := 0,
    device_type := "smartphone", network_quality_score := 1 }

/-- The pre-existing active offer of the C9 counterexample. -/
def c9Offer : Offer :=
  { offer_id := "o1", msisdn := "a", session_id := "s1", amount := 10,
    status := OfferStatus.created, created_at := 0, expires_at := 601000,
    reasons := [], model_decision_id := "d0", consent_token := some "tok",
    benefit_estimate := none, context_reasons := [] }

/-- Store of the C9 counterexample. -/
def c9Store : Store := { users := [("a", c9User)], offers := [c9Offer] }

/-- Counterexample to claim C9 as stated: subscriber "a" holds an active
(non-expired, `created`) offer, yet `createOffer` returns `null` rather
than that offer, because the eligibility gate (`opt_out`) runs first and
fails. -/
theorem C9_counterexample_ineligible_not_returned :
    Store.getActiveOfferForUser c9Store "a" 1000 = some c9Offer ∧
    (createOffer c9Store "a" "s1" 0 "d1" "o2" "tok2" "e1" 1000).2 = none := by
  decide

/-- Claim C9 as amended: for every subscriber who passes the eligibility
check and already has an active (`created`/`sms_sent`/`link_opened`,
non-expired) offer, `createOffer` returns that pre-existing offer and
leaves the offer set unchanged (no new offer); when eligibility fails it
returns `null` and likewise creates no offer. -/
theorem C9_createOffer_idempotent_when_eligible
    (s : Store) (msisdn sessionId : String) (rand : ℚ)
    (decisionId offerId token eventId : String) (now : Int) (o : Offer)
    (helig : (checkEligibility s msisdn rand decisionId now).2.eligible = true)
    (hact : s.getActiveOfferForUser msisdn now = some o) :
    (createOffer s msisdn sessionId rand decisionId offerId token eventId now).2
      = some o ∧
    (createOffer s msisdn sessionId rand decisionId offerId token eventId
      now).1.offers = s.offers := by
  obtain ⟨hamt, hmd⟩ :=
    checkEligibility_eligible_shape s msisdn rand decisionId now helig
  have hoffers := offers_checkEligibility s msisdn rand decisionId now
  have hact1 : (checkEligibility s msisdn rand decisionId
      now).1.getActiveOfferForUser msisdn now = some o := by
    unfold Store.getActiveOfferForUser at hact ⊢
    rw [hoffers]
    exact hact
  unfold createOffer
  dsimp only
  rw [if_neg (by
    push_neg
    exact ⟨helig, hamt, hmd⟩)]
  rw [hact1]
  exact ⟨rfl, hoffers⟩

/-- Eligible high-trust user for the C9 witness. -/
def c9wUser : UserProfile :=
  { msisdn := "a", tenure_days := 240, avg_topup_amount := 20,
    topup_frequency_30d := 4, opt_out := false, last_topup_date := some 0,
    total_topups_90d := 10, on_time_repay_rate := 1, recent_call_drops := 0,
    device_type := "smartphone", network_quality_score := 1 }

/-- The pre-existing active offer of the C9 witness. -/
def c9wOffer : Offer :=
  { offer_id := "o1", msisdn := "a", session_id := "s1", amount := 10,
    status := OfferStatus.smsSent, created_at := 0, expires_at := 601000,
    reasons := [], model_decision_id := "d0", consent_token := some "tok",
    benefit_estimate := none, context_reasons := [] }

/-- Store of the C9 witness. -/
def c9wStore : Store := { users := [("a", c9wUser)], offers := [c9wOffer] }

/-- Witness for the amended C9: the concrete subscriber passes
eligibility, holds the active offer, and `createOffer` hands that offer
back without touching the offer set. -/
theorem C9_createOffer_idempotent_witness :
    (checkEligibility c9wStore "a" 0 "d1" 1000).2.eligible = true ∧
    Store.getActiveOfferForUser c9wStore "a" 1000 = some c9wOffer ∧
    ((createOffer c9wStore "a" "s1" 0 "d1" "o2" "tok2" "e1" 1000).2
       = some c9wOffer ∧
     (createOffer c9wStore "a" "s1" 0 "d1" "o2" "tok2" "e1" 1000).1.offers
       = c9wStore.offers) := by
  have hc : charCode0 "a" = 97 := rfl
  have helig : (checkEligibility c9wStore "a" 0 "d1" 1000).2.eligible = true := by
    norm_num [checkEligibility, c9wStore, c9wUser, c9wOffer, Store.getUser,
      Store.getActiveLoanForUser, Store.getLoansByMsisdn, Store.getOffersByMsisdn,
      Store.setModelDecision, assocGet, getFeatureVector, predict,
      calculateContributions, sortByAbsDesc, insertByAbsDesc, jsAbs, jsMin,
      jsMax, calculateRepayProbability, calculateConfidence,
      calculateRecommendedLimit, hc, applyPolicyConstraints, loanWithinCooldown,
      MIN_TENURE_DAYS, MIN_P_REPAY, MIN_CONFIDENCE, AMOUNT_BUCKETS, MS_IN_DAY,
      List.foldl, List.filter]
  exact ⟨helig, by decide,
    C9_createOffer_idempotent_when_eligible c9wStore "a" "s1" 0 "d1" "o2"
      "tok2" "e1" 1000 c9wOffer helig (by decide)⟩

/-! ## Claim C6 -/

/-- `jsMin` is the mathematical minimum. -/
theorem jsMin_eq_min (a b : ℚ) : jsMin a b = min a b := by
  unfold jsMin
  split
  · exact (min_eq_left (le_of_lt (by assumption))).symm
  · exact (min_eq_right (not_lt.mp (by assumption))).symm

/-- `jsMax` is the mathematical maximum. -/
theorem jsMax_eq_max (a b : ℚ) : jsMax a b = max a b := by
  unfold jsMax
  split
  · exact (max_eq_right (le_of_lt (by assumption))).symm
  · exact (max_eq_left (not_lt.mp (by assumption))).symm

/-- The largest member of the fixed ascending bucket set {1, 5, 10} that
is at most `cap`, defaulting to the smallest bucket. -/
def largestBucketLE (cap : ℚ) : ℚ :=
  if 10 ≤ cap then 10 else if 5 ≤ cap then 5 else 1

/-- The source's `buckets.filter(b => b <= cap).pop() || buckets[0]`
expression equals `largestBucketLE`. -/
theorem bucketPop_closed (cap : ℚ) :
    ((([1, 5, 10] : List ℚ).filter (fun b => b ≤ cap)).getLast?).getD 1 =
      largestBucketLE cap := by
  unfold largestBucketLE
  by_cases h10 : (10:ℚ) ≤ cap
  · have h5 : (5:ℚ) ≤ cap := le_trans (by norm_num) h10
    have h1 : (1:ℚ) ≤ cap := le_trans (by norm_num) h10
    simp [List.filter, h10, h5, h1]
  · by_cases h5 : (5:ℚ) ≤ cap
    · have h1 : (1:ℚ) ≤ cap := le_trans (by norm_num) h5
      simp [List.filter, h10, h5, h1]
    · by_cases h1 : (1:ℚ) ≤ cap
      · simp [List.filter, h10, h5, h1]
      · simp [List.filter, h10, h5, h1]

/-- Claim C6: past eligibility gates 1-7, the approved amount is the
largest member of {1, 5, 10} at most
min(recommended_limit, 50% of the average top-up, the average top-up);
when that capped value is below the smallest bucket the gate rejects
with the policy-constraints reason and no approved amount. -/
theorem C6_policy_bucketing
    (s : Store) (m : String) (rand : ℚ) (d : String) (now : Int)
    (u : UserProfile) (fv : FeatureVector)
    (hu : s.getUser m = some u)
    (hopt : u.opt_out = false)
    (hten : ¬ u.tenure_days < MIN_TENURE_DAYS)
    (hloan : (match s.getActiveLoanForUser m with
              | some l => Store.activeLoanStatus l.status && loanWithinCooldown l now
              | none => false) = false)
    (hfv : getFeatureVector s m now rand = some fv)
    (hp : ¬ (predict fv d now).outputs.p_repay < MIN_P_REPAY)
    (hc : ¬ (predict fv d now).outputs.confidence < MIN_CONFIDENCE) :
    (1 ≤ min (predict fv d now).outputs.recommended_limit
        (min (u.avg_topup_amount * (1/2)) u.avg_topup_amount) →
      (checkEligibility s m rand d now).2.eligible = true ∧
      (checkEligibility s m rand d now).2.approvedAmount =
        some (largestBucketLE (min (predict fv d now).outputs.recommended_limit
          (min (u.avg_topup_amount * (1/2)) u.avg_topup_amount)))) ∧
    (min (predict fv d now).outputs.recommended_limit
        (min (u.avg_topup_amount * (1/2)) u.avg_topup_amount) < 1 →
      (checkEligibility s m rand d now).2.eligible = false ∧
      (checkEligibility s m rand d now).2.approvedAmount = none ∧
      (checkEligibility s m rand d now).2.reasons =
        ["Policy constraints not met"]) := by
  have hlim : jsMin (jsMin (predict fv d now).outputs.recommended_limit
      (u.avg_topup_amount * (1/2))) u.avg_topup_amount =
      min (predict fv d now).outputs.recommended_limit
        (min (u.avg_topup_amount * (1/2)) u.avg_topup_amount) := by
    rw [jsMin_eq_min, jsMin_eq_min, min_assoc]
  unfold checkEligibility
  dsimp only
  simp only [hu, hopt, hten, hloan, hfv, hp, hc, Bool.false_eq_true, if_false]
  unfold applyPolicyConstraints
  dsimp only
  simp only [hlim]
  constructor
  · intro h1
    rw [if_neg (not_lt.mpr h1)]
    exact ⟨rfl, by rw [bucketPop_closed]⟩
  · intro h1
    rw [if_pos h1]
    exact ⟨rfl, rfl, rfl⟩

/-- Eligible high-trust user for the C6 witness. -/
def c6User : UserProfile :=
  { msisdn := "a", tenure_days := 240, avg_topup_amount := 20,
    topup_frequency_30d := 4, opt_out := false, last_topup_date := some 0,
    total_topups_90d := 10, on_time_repay_rate := 1, recent_call_drops := 0,
    device_type := "smartphone", network_quality_score := 1 }

/-- Store of the C6 witness. -/
def c6Store : Store := { users := [("a", c6User)] }

/-- The feature vector the feature store derives for the C6 witness. -/
def c6FV : FeatureVector :=
  { msisdn := "a", timestamp := 1000, topup_frequency_30d := 4,
    avg_topup_amount := 20, last_topup_days_ago := 0, total_topups_90d := 10,
    tenure_days := 240, on_time_repay_rate := 1, total_loans := 0,
    total_repaid := 0, recent_call_drops := 0, avg_call_duration_minutes := 5,
    recent_low_balance_events := 0, device_type := "smartphone",
    network_quality_score := 1 }

/-- Witness for C6 at a concrete subscriber passing gates 1-7: the
capped limit is 10, so the approved amount is the bucket 10. -/
theorem C6_policy_bucketing_witness :
    c6Store.getUser "a" = some c6User ∧
    c6User.opt_out = false ∧
    ¬ c6User.tenure_days < MIN_TENURE_DAYS ∧
    (match c6Store.getActiveLoanForUser "a" with
      | some l => Store.activeLoanStatus l.status && loanWithinCooldown l 1000
      | none => false) = false ∧
    getFeatureVector c6Store "a" 1000 0 = some c6FV ∧
    ¬ (predict c6FV "d1" 1000).outputs.p_repay < MIN_P_REPAY ∧
    ¬ (predict c6FV "d1" 1000).outputs.confidence < MIN_CONFIDENCE ∧
    ((1 ≤ min (predict c6FV "d1" 1000).outputs.recommended_limit
        (min (c6User.avg_topup_amount * (1/2)) c6User.avg_topup_amount) →
      (checkEligibility c6Store "a" 0 "d1" 1000).2.eligible = true ∧
      (checkEligibility c6Store "a" 0 "d1" 1000).2.approvedAmount =
        some (largestBucketLE (min (predict c6FV "d1" 1000).outputs.recommended_limit
          (min (c6User.avg_topup_amount * (1/2)) c6User.avg_topup_amount)))) ∧
    (min (predict c6FV "d1" 1000).outputs.recommended_limit
        (min (c6User.avg_topup_amount * (1/2)) c6User.avg_topup_amount) < 1 →
      (checkEligibility c6Store "a" 0 "d1" 1000).2.eligible = false ∧
      (checkEligibility c6Store "a" 0 "d1" 1000).2.approvedAmount = none ∧
      (checkEligibility c6Store "a" 0 "d1" 1000).2.reasons =
        ["Policy constraints not met"])) := by
  have hc0 : charCode0 "a" = 97 := rfl
  have hu : c6Store.getUser "a" = some c6User := rfl
  have hopt : c6User.opt_out = false := rfl
  have hten : ¬ c6User.tenure_days < MIN_TENURE_DAYS := by decide
  have hloan : (match c6Store.getActiveLoanForUser "a" with
      | some l => Store.activeLoanStatus l.status && loanWithinCooldown l 1000
      | none => false) = false := rfl
  have hfv : getFeatureVector c6Store "a" 1000 0 = some c6FV := by
    norm_num [getFeatureVector, c6Store, c6User, c6FV, Store.getUser,
      Store.getLoansByMsisdn, Store.getOffersByMsisdn, Store.getTopUps,
      assocGet, MS_IN_DAY, List.filter, show Int.fdiv 1000 86400000 = 0 from rfl]
  have hp : ¬ (predict c6FV "d1" 1000).outputs.p_repay < MIN_P_REPAY := by
    norm_num [predict, c6FV, calculateContributions, sortByAbsDesc,
      insertByAbsDesc, jsAbs, jsMin, jsMax, calculateRepayProbability,
      calculateConfidence, calculateRecommendedLimit, hc0, MIN_P_REPAY,
      AMOUNT_BUCKETS, List.foldl, List.filter]
  have hcf : ¬ (predict c6FV "d1" 1000).outputs.confidence < MIN_CONFIDENCE := by
    norm_num [predict, c6FV, calculateContributions, sortByAbsDesc,
      insertByAbsDesc, jsAbs, jsMin, jsMax, calculateRepayProbability,
      calculateConfidence, calculateRecommendedLimit, hc0, MIN_CONFIDENCE,
      AMOUNT_BUCKETS, List.foldl, List.filter]
  exact ⟨hu, hopt, hten, hloan, hfv, hp, hcf,
    C6_policy_bucketing c6Store "a" 0 "d1" 1000 c6User c6FV hu hopt hten
      hloan hfv hp hcf⟩

/-! ## Claim C8 -/

/-- The `p_repay` the model computes for a feature vector. -/
def pOf (f : FeatureVector) : ℚ :=
  calculateRepayProbability f (calculateContributions f)

/-- The `confidence` the model computes for a feature vector. -/
def cOf (f : FeatureVector) : ℚ :=
  calculateConfidence f (calculateContributions f)

/-- `p_repay` is clamped below by 0. -/
theorem pOf_nonneg (f : FeatureVector) : 0 ≤ pOf f := by
  unfold pOf calculateRepayProbability
  rw [jsMax_eq_max]
  exact le_max_left _ _

/-- `confidence` is clamped below by 1/2, hence nonnegative. -/
theorem cOf_nonneg (f : FeatureVector) : 0 ≤ cOf f := by
  unfold cOf calculateConfidence
  rw [jsMax_eq_max]
  exact le_trans (by norm_num) (le_max_left (1/2 : ℚ) _)

/-- The recommended limit in closed form: bucket of the capped
risk-adjusted limit. -/
theorem recommendedLimit_closed (f : FeatureVector) (p c : ℚ) :
    calculateRecommendedLimit f p c =
      largestBucketLE (min (f.avg_topup_amount * p * c)
        (f.avg_topup_amount * (1/2))) := by
  unfold calculateRecommendedLimit AMOUNT_BUCKETS
  dsimp only
  rw [jsMin_eq_min, bucketPop_closed]

/-- Bucketing down is monotone. -/
theorem largestBucketLE_mono {x y : ℚ} (h : x ≤ y) :
    largestBucketLE x ≤ largestBucketLE y := by
  unfold largestBucketLE
  by_cases h10 : (10:ℚ) ≤ x
  · rw [if_pos h10, if_pos (le_trans h10 h)]
  · rw [if_neg h10]
    by_cases h5 : (5:ℚ) ≤ x
    · rw [if_pos h5]
      by_cases h10y : (10:ℚ) ≤ y
      · rw [if_pos h10y]; norm_num
      · rw [if_neg h10y, if_pos (le_trans h5 h)]
    · rw [if_neg h5]
      by_cases h10y : (10:ℚ) ≤ y
      · rw [if_pos h10y]; norm_num
      · rw [if_neg h10y]
        by_cases h5y : (5:ℚ) ≤ y
        · rw [if_pos h5y]; norm_num
        · rw [if_neg h5y]

/-- Every bucket is at least the smallest bucket. -/
theorem one_le_largestBucketLE (x : ℚ) : 1 ≤ largestBucketLE x := by
  unfold largestBucketLE
  by_cases h10 : (10:ℚ) ≤ x
  · rw [if_pos h10]; norm_num
  · rw [if_neg h10]
    by_cases h5 : (5:ℚ) ≤ x
    · rw [if_pos h5]; norm_num
    · rw [if_neg h5]

/-- Claim C8: with identical policy caps (equal average top-up amounts),
a feature vector whose computed `p_repay` and `confidence` are at least
those of another is approved for at least as large an amount: the
model-and-policy bucket never decreases when the model inputs improve. -/
theorem C8_bucket_monotone (fA fB : FeatureVector) (u : UserProfile)
    (idA idB : String) (tA tB : Int)
    (havg : fA.avg_topup_amount = fB.avg_topup_amount)
    (havg0 : 0 ≤ fB.avg_topup_amount)
    (hp : pOf fB ≤ pOf fA) (hc : cOf fB ≤ cOf fA) (b : ℚ)
    (hB : applyPolicyConstraints (predict fB idB tB) u = some b) :
    ∃ a, applyPolicyConstraints (predict fA idA tA) u = some a ∧ b ≤ a := by
  have hrlA : (predict fA idA tA).outputs.recommended_limit =
      calculateRecommendedLimit fA (pOf fA) (cOf fA) := rfl
  have hrlB : (predict fB idB tB).outputs.recommended_limit =
      calculateRecommendedLimit fB (pOf fB) (cOf fB) := rfl
  have hprod : fB.avg_topup_amount * pOf fB * cOf fB ≤
      fB.avg_topup_amount * pOf fA * cOf fA :=
    mul_le_mul (mul_le_mul_of_nonneg_left hp havg0) hc (cOf_nonneg fB)
      (mul_nonneg havg0 (pOf_nonneg fA))
  have hrec : calculateRecommendedLimit fB (pOf fB) (cOf fB) ≤
      calculateRecommendedLimit fA (pOf fA) (cOf fA) := by
    rw [recommendedLimit_closed, recommendedLimit_closed, havg]
    exact largestBucketLE_mono (min_le_min hprod (le_refl _))
  unfold applyPolicyConstraints at hB ⊢
  dsimp only at hB ⊢
  rw [jsMin_eq_min, jsMin_eq_min] at hB ⊢
  rw [hrlA]
  rw [hrlB] at hB
  set capB := min (min (calculateRecommendedLimit fB (pOf fB) (cOf fB))
    (u.avg_topup_amount * (1/2))) u.avg_topup_amount with hcapB
  set capA := min (min (calculateRecommendedLimit fA (pOf fA) (cOf fA))
    (u.avg_topup_amount * (1/2))) u.avg_topup_amount with hcapA
  have hcaple : capB ≤ capA := min_le_min (min_le_min hrec (le_refl _)) (le_refl _)
  by_cases hlt : capB < 1
  · rw [if_pos hlt] at hB
    exact absurd hB (by simp)
  · rw [if_neg hlt] at hB
    have hltA : ¬ capA < 1 := fun h => hlt (lt_of_le_of_lt hcaple h)
    rw [if_neg hltA]
    rw [bucketPop_closed] at hB
    rw [bucketPop_closed]
    refine ⟨largestBucketLE capA, rfl, ?_⟩
    have hbb : b = largestBucketLE capB := by
      simpa using hB.symm
    rw [hbb]
    exact largestBucketLE_mono hcaple

/-- Strong feature vector for the C8 witness (same as the C6 one). -/
def c8FVgood : FeatureVector := c6FV

/-- Weak feature vector for the C8 witness: same average top-up, poor
repayment, stale top-ups, call drops, feature phone. -/
def c8FVpoor : FeatureVector :=
  { msisdn := "a", timestamp := 1000, topup_frequency_30d := 0,
    avg_topup_amount := 20, last_topup_days_ago := 999, total_topups_90d := 0,
    tenure_days := 20, on_time_repay_rate := 1/2, total_loans := 0,
    total_repaid := 0, recent_call_drops := 5, avg_call_duration_minutes := 5,
    recent_low_balance_events := 0, device_type := "feature_phone",
    network_quality_score := 1/2 }

/-- Witness for C8: the poor vector is approved for bucket 1, and the
monotonicity theorem lifts the strong vector to at least that bucket. -/
theorem C8_bucket_monotone_witness :
    c8FVgood.avg_topup_amount = c8FVpoor.avg_topup_amount ∧
    (0:ℚ) ≤ c8FVpoor.avg_topup_amount ∧
    pOf c8FVpoor ≤ pOf c8FVgood ∧
    cOf c8FVpoor ≤ cOf c8FVgood ∧
    applyPolicyConstraints (predict c8FVpoor "dB" 0) c6User = some 1 ∧
    (∃ a, applyPolicyConstraints (predict c8FVgood "dA" 0) c6User = some a ∧
      (1:ℚ) ≤ a) := by
  have hc0 : charCode0 "a" = 97 := rfl
  have havg : c8FVgood.avg_topup_amount = c8FVpoor.avg_topup_amount := rfl
  have havg0 : (0:ℚ) ≤ c8FVpoor.avg_topup_amount := by
    norm_num [c8FVpoor]
  have hp : pOf c8FVpoor ≤ pOf c8FVgood := by
    norm_num [pOf, calculateRepayProbability, calculateContributions,
      sortByAbsDesc, insertByAbsDesc, jsAbs, jsMin, jsMax, hc0, c8FVpoor,
      c8FVgood, c6FV, List.foldl]
  have hcc : cOf c8FVpoor ≤ cOf c8FVgood := by
    norm_num [cOf, calculateConfidence, calculateContributions,
      sortByAbsDesc, insertByAbsDesc, jsAbs, jsMin, jsMax, hc0, c8FVpoor,
      c8FVgood, c6FV, List.foldl]
  have hB : applyPolicyConstraints (predict c8FVpoor "dB" 0) c6User = some 1 := by
    norm_num [applyPolicyConstraints, predict, calculateRecommendedLimit,
      calculateRepayProbability, calculateConfidence, calculateContributions,
      sortByAbsDesc, insertByAbsDesc, jsAbs, jsMin, jsMax, hc0, c8FVpoor,
      c6User, AMOUNT_BUCKETS, List.foldl, List.filter]
  exact ⟨havg, havg0, hp, hcc, hB,
    C8_bucket_monotone c8FVgood c8FVpoor c6User "dA" "dB" 0 0 havg havg0
      hp hcc 1 hB⟩

/-! ## Claim C3 -/

/-- The at-most-one-active-loan invariant for one subscriber, as the
spec states it. -/
def AtMostOneActiveLoan (s : Store) (m : String) : Prop :=
  ∀ l1 ∈ s.loans, ∀ l2 ∈ s.loans,
    l1.msisdn = m → Store.activeLoanStatus l1.status = true →
    l2.msisdn = m → Store.activeLoanStatus l2.status = true → l1 = l2

/-- The at-most-one-active-offer invariant for one subscriber at one
observation time. -/
def AtMostOneActiveOffer (s : Store) (m : String) (now : Int) : Prop :=
  ∀ o1 ∈ s.offers, ∀ o2 ∈ s.offers,
    o1.msisdn = m → Store.activeOfferStatus o1.status = true →
    now < o1.expires_at →
    o2.msisdn = m → Store.activeOfferStatus o2.status = true →
    now < o2.expires_at → o1 = o2

/-- Under at-most-one-active-loan, the trigger gate's check of the first
active loan agrees with "some loan with status disbursed exists". -/
theorem loanBlocks_iff (s : Store) (m : String) (h : AtMostOneActiveLoan s m) :
    (match s.getActiveLoanForUser m with
     | some l => decide (l.status = LoanStatus.disbursed)
     | none => false) = true ↔
    ∃ l ∈ s.loans, l.msisdn = m ∧ l.status = LoanStatus.disbursed := by
  constructor
  · intro hm
    cases hf : s.getActiveLoanForUser m with
    | none => rw [hf] at hm; simp at hm
    | some l =>
      rw [hf] at hm
      simp only [decide_eq_true_eq] at hm
      have hmem := List.mem_of_find?_eq_some hf
      have hl := List.find?_some hf
      simp only [decide_eq_true_eq] at hl
      exact ⟨l, hmem, hl.1, hm⟩
  · rintro ⟨l, hmem, hlm, hld⟩
    have hact : Store.activeLoanStatus l.status = true := by
      unfold Store.activeLoanStatus
      rw [hld]
      decide
    have hsome : (s.loans.find? (fun x =>
        x.msisdn = m ∧ Store.activeLoanStatus x.status)).isSome := by
      rw [List.find?_isSome]
      exact ⟨l, hmem, by simp [hlm, hact]⟩
    cases hf : s.getActiveLoanForUser m with
    | none =>
      unfold Store.getActiveLoanForUser at hf
      rw [hf] at hsome
      simp at hsome
    | some l0 =>
      have hmem0 := List.mem_of_find?_eq_some hf
      have hl0 := List.find?_some hf
      simp only [decide_eq_true_eq] at hl0
      have : l0 = l := h l0 hmem0 l hmem hl0.1 hl0.2 hlm hact
      simp [this, hld]

/-- Under at-most-one-active-offer, the trigger gate's cooldown check of
the first active offer agrees with "some active offer created within the
cooldown window exists". -/
theorem cooldownBlocks_iff (s : Store) (m : String) (now ts cd : Int)
    (h : AtMostOneActiveOffer s m now) :
    (match s.getActiveOfferForUser m now with
     | some o => decide (ts - o.created_at < cd)
     | none => false) = true ↔
    ∃ o ∈ s.offers, (o.msisdn = m ∧ Store.activeOfferStatus o.status = true ∧
      now < o.expires_at) ∧ ts - o.created_at < cd := by
  constructor
  · intro hm
    cases hf : s.getActiveOfferForUser m now with
    | none => rw [hf] at hm; simp at hm
    | some o =>
      rw [hf] at hm
      simp only [decide_eq_true_eq] at hm
      have hmem := List.mem_of_find?_eq_some hf
      have ho := List.find?_some hf
      simp only [decide_eq_true_eq] at ho
      exact ⟨o, hmem, ho, hm⟩
  · rintro ⟨o, hmem, ⟨hom, hoact, hoexp⟩, hcd⟩
    have hsome : (s.offers.find? (fun x =>
        x.msisdn = m ∧ Store.activeOfferStatus x.status ∧
          now < x.expires_at)).isSome := by
      rw [List.find?_isSome]
      exact ⟨o, hmem, by simp [hom, hoact, hoexp]⟩
    cases hf : s.getActiveOfferForUser m now with
    | none =>
      unfold Store.getActiveOfferForUser at hf
      rw [hf] at hsome
      simp at hsome
    | some o0 =>
      have hmem0 := List.mem_of_find?_eq_some hf
      have ho0 := List.find?_some hf
      simp only [decide_eq_true_eq] at ho0
      have : o0 = o :=
        h o0 hmem0 o hmem ho0.1 ho0.2.1 ho0.2.2 hom hoact hoexp
      simp [this, hcd]

/-- `assocGet` after `assocSet` on the same key. -/
theorem assocGet_assocSet {α : Type} (k : String) (v : α) :
    ∀ l : List (String × α), assocGet k (assocSet k v l) = some v := by
  intro l
  induction l with
  | nil => simp [assocGet, assocSet]
  | cons kv rest ih =>
    by_cases hk : kv.1 = k
    · simp [assocGet, assocSet, hk]
    · simpa [assocGet, assocSet, hk] using ih

/-- Claim C3: under the per-subscriber at-most-one-active invariants,
the Trigger Gate fires on a balance sample exactly when: the sample
names a session that exists and has no end time; the balance is at most
the threshold; the time since the subscriber's last trigger is at least
the debounce window; no currently-active non-expired offer was created
within the cooldown window; and no loan has status disbursed. On firing
the returned last-trigger map (which the source updates before notifying
listeners) holds the sample's timestamp, and the event carries the
sample's fields and the configured threshold. -/
theorem C3_trigger_gate_iff (cfg : TriggerConfig) (lt : List (String × Int))
    (s : Store) (u : BalanceUpdate) (now : Int)
    (hOff : AtMostOneActiveOffer s u.msisdn now)
    (hLoan : AtMostOneActiveLoan s u.msisdn) :
    ((checkBalanceUpdate cfg lt s u now).2.isSome = true ↔
      ((∃ sid, u.session_id = some sid ∧
        ∃ sess, s.getCallSession sid = some sess ∧ sess.end_time = none) ∧
       u.balance ≤ cfg.threshold ∧
       cfg.debounceMs ≤ u.timestamp - (assocGet u.msisdn lt).getD 0 ∧
       ¬ (∃ o ∈ s.offers, (o.msisdn = u.msisdn ∧
            Store.activeOfferStatus o.status = true ∧ now < o.expires_at) ∧
            u.timestamp - o.created_at < cfg.cooldownMs) ∧
       ¬ (∃ l ∈ s.loans, l.msisdn = u.msisdn ∧
            l.status = LoanStatus.disbursed))) ∧
    (∀ ev, (checkBalanceUpdate cfg lt s u now).2 = some ev →
      assocGet u.msisdn (checkBalanceUpdate cfg lt s u now).1 =
        some u.timestamp ∧
      ev.msisdn = u.msisdn ∧ u.session_id = some ev.session_id ∧
      ev.balance = u.balance ∧ ev.threshold = cfg.threshold ∧
      ev.timestamp = u.timestamp) := by
  have hcool_iff := cooldownBlocks_iff s u.msisdn now u.timestamp
    cfg.cooldownMs hOff
  have hloan_iff := loanBlocks_iff s u.msisdn hLoan
  unfold checkBalanceUpdate
  dsimp only
  cases hsid : u.session_id with
  | none =>
    constructor
    · simp
    · intro ev hev
      simp at hev
  | some sid =>
    cases hsess : s.getCallSession sid with
    | none =>
      constructor
      · simp [hsess]
      · intro ev hev
        simp [hsess] at hev
    | some sess =>
      simp only [hsess]
      by_cases hend : sess.end_time = none
      · simp only [hend, not_true_eq_false, reduceIte]
        by_cases hbal : cfg.threshold < u.balance
        · constructor
          · simp [hbal, hsess, hend, not_le.mpr hbal]
          · intro ev hev
            simp [hbal] at hev
        · simp only [hbal, reduceIte]
          by_cases hdeb : u.timestamp - (assocGet u.msisdn lt).getD 0 <
              cfg.debounceMs
          · constructor
            · simp [hdeb, not_le.mpr hdeb]
            · intro ev hev
              simp [hdeb] at hev
          · simp only [hdeb, reduceIte]
            by_cases hcool : (match s.getActiveOfferForUser u.msisdn now with
                | some recentOffer =>
                  decide (u.timestamp - recentOffer.created_at < cfg.cooldownMs)
                | none => false) = true
            · constructor
              · simp only [hcool, reduceIte]
                simp [hcool_iff.mp hcool]
              · intro ev hev
                simp only [hcool, reduceIte] at hev
                simp at hev
            · simp only [hcool, reduceIte]
              by_cases hloanB : (match s.getActiveLoanForUser u.msisdn with
                  | some activeLoan =>
                    decide (activeLoan.status = LoanStatus.disbursed)
                  | none => false) = true
              · constructor
                · simp only [hloanB, reduceIte]
                  simp [hloan_iff.mp hloanB]
                · intro ev hev
                  simp only [hloanB, reduceIte] at hev
                  simp at hev
              · simp only [hloanB, reduceIte]
                constructor
                · refine iff_of_true (by simp) ?_
                  refine ⟨⟨sid, rfl, sess, hsess, hend⟩, not_lt.mp hbal,
                    not_lt.mp hdeb, ?_, ?_⟩
                  · intro hx
                    exact hcool (hcool_iff.mpr hx)
                  · intro hx
                    exact hloanB (hloan_iff.mpr hx)
                · intro ev hev
                  injection hev with hev
                  subst hev
                  exact ⟨assocGet_assocSet u.msisdn u.timestamp lt, rfl, rfl,
                    rfl, rfl, rfl⟩
      · constructor
        · rw [if_pos hend]
          simp only [Option.isSome_none, Bool.false_eq_true, false_iff]
          intro hx
          rcases hx.1 with ⟨sid1, hs1, sess1, hg1, he1⟩
          rw [Option.some.injEq] at hs1
          subst hs1
          rw [hsess, Option.some.injEq] at hg1
          subst hg1
          exact hend he1
        · intro ev hev
          rw [if_pos hend] at hev
          simp at hev

/-- Active call session for the C3 witness. -/
def c3Session : CallSession :=
  { event_type := "call_start", session_id := "s1", msisdn := "a",
    start_time := 0, end_time := none }

/-- Store of the C3 witness: one active session, no offers, no loans. -/
def c3Store : Store := { callSessions := [("s1", c3Session)] }

/-- Low-balance sample of the C3 witness. -/
def c3u : BalanceUpdate :=
  { msisdn := "a", session_id := some "s1", balance := 0, timestamp := 5000,
    consumption_rate_per_min := 1 }

/-- Witness for C3: at the concrete store every firing condition holds
and the trigger-gate theorem yields that the trigger fires. -/
theorem C3_trigger_gate_witness :
    AtMostOneActiveOffer c3Store "a" 5000 ∧ AtMostOneActiveLoan c3Store "a" ∧
    (checkBalanceUpdate demoTriggerConfig [] c3Store c3u 5000).2.isSome
      = true := by
  have hOff : AtMostOneActiveOffer c3Store "a" 5000 := by
    intro o1 h1
    simp [c3Store] at h1
  have hLoan : AtMostOneActiveLoan c3Store "a" := by
    intro l1 h1
    simp [c3Store] at h1
  refine ⟨hOff, hLoan, ?_⟩
  refine (C3_trigger_gate_iff demoTriggerConfig [] c3Store c3u 5000 hOff
    hLoan).1.mpr ⟨⟨"s1", rfl, c3Session, rfl, rfl⟩, by decide, by decide,
      ?_, ?_⟩
  · intro hx
    obtain ⟨o, ho, _⟩ := hx
    simp [c3Store] at ho
  · intro hx
    obtain ⟨l, hl, _⟩ := hx
    simp [c3Store] at hl

/-! ## Claim C5 -/

/-- Under at-most-one-active-loan, a disbursed loan of the subscriber is
the loan `getActiveLoanForUser` finds. -/
theorem getActiveLoan_of_disbursed (s : Store) (m : String)
    (h : AtMostOneActiveLoan s m) (l : Loan) (hmem : l ∈ s.loans)
    (hlm : l.msisdn = m) (hld : l.status = LoanStatus.disbursed) :
    s.getActiveLoanForUser m = some l := by
  have hact : Store.activeLoanStatus l.status = true := by
    unfold Store.activeLoanStatus
    rw [hld]
    decide
  have hsome : (s.loans.find? (fun x =>
      x.msisdn = m ∧ Store.activeLoanStatus x.status)).isSome := by
    rw [List.find?_isSome]
    exact ⟨l, hmem, by simp [hlm, hact]⟩
  cases hf : s.getActiveLoanForUser m with
  | none =>
    unfold Store.getActiveLoanForUser at hf
    rw [hf] at hsome
    simp at hsome
  | some l0 =>
    have hmem0 := List.mem_of_find?_eq_some hf
    have hl0 := List.find?_some hf
    simp only [decide_eq_true_eq] at hl0
    rw [h l0 hmem0 l hmem hl0.1 hl0.2 hlm hact]

/-- `setLoan` with a loan keyed like a stored one replaces it in place. -/
theorem setLoan_loans_of_mem (s : Store) (l l' : Loan)
    (hid : l'.loan_id = l.loan_id) (hmem : l ∈ s.loans) :
    (s.setLoan l').loans =
      s.loans.map (fun x => if x.loan_id = l.loan_id then l' else x) := by
  unfold Store.setLoan
  rw [if_pos]
  · simp only [hid]
  · rw [List.find?_isSome]
    exact ⟨l, hmem, by simp [hid]⟩

/-- The freshly appended balance sample is the latest one. -/
theorem getLatestBalance_addBalanceUpdate (s : Store) (m : String)
    (u : BalanceUpdate) :
    (s.addBalanceUpdate m u).getLatestBalance m = some u := by
  unfold Store.getLatestBalance Store.addBalanceUpdate
  dsimp only
  rw [assocGet_assocSet]
  simp

/-- `addLedgerEvent` leaves the balance history untouched. -/
theorem getLatestBalance_addLedgerEvent (s : Store) (e : LedgerEvent)
    (m : String) :
    (s.addLedgerEvent e).getLatestBalance m = s.getLatestBalance m := rfl

/-- Claim C5: under at-most-one-active-loan, a top-up settles nothing
when the subscriber has no disbursed loan (the store is unchanged), and
when a disbursed loan exists, exactly that one loan is flipped to
`repaid` with `repaid_at` set, every other loan is untouched, and the
resulting latest balance is (current balance) + (top-up amount − loan
amount) — also when the top-up is smaller than the loan amount, with no
guard for that case. -/
theorem C5_processTopUp_settlement (s : Store) (t : TopUp)
    (e0 e1 e2 : String) (now : Int)
    (hLoan : AtMostOneActiveLoan s t.msisdn) :
    ((¬ ∃ l ∈ s.loans, l.msisdn = t.msisdn ∧
        l.status = LoanStatus.disbursed) →
      processTopUp s t e0 e1 e2 now = s) ∧
    (∀ l ∈ s.loans, l.msisdn = t.msisdn → l.status = LoanStatus.disbursed →
      (processTopUp s t e0 e1 e2 now).loans =
        s.loans.map (fun x => if x.loan_id = l.loan_id then
          { l with repaid_at := some now, status := LoanStatus.repaid }
          else x) ∧
      ((processTopUp s t e0 e1 e2 now).getLatestBalance t.msisdn).map
          (fun b => b.balance) =
        some (((s.getLatestBalance t.msisdn).map (fun b => b.balance)).getD 0 +
          (t.amount - l.amount))) := by
  constructor
  · intro hno
    unfold processTopUp
    cases hf : s.getActiveLoanForUser t.msisdn with
    | none => rfl
    | some l0 =>
      have hmem0 := List.mem_of_find?_eq_some hf
      have hl0 := List.find?_some hf
      simp only [decide_eq_true_eq] at hl0
      have hnd : ¬ l0.status = LoanStatus.disbursed := by
        intro hd
        exact hno ⟨l0, hmem0, hl0.1, hd⟩
      dsimp only
      rw [if_pos hnd]
  · intro l hmem hlm hld
    have hf := getActiveLoan_of_disbursed s t.msisdn hLoan l hmem hlm hld
    unfold processTopUp
    rw [hf]
    dsimp only
    rw [if_neg (by simp [hld])]
    unfold repayLoan
    dsimp only
    constructor
    · exact setLoan_loans_of_mem _ l _ rfl hmem
    · simp only [hlm]
      rw [getLatestBalance_addLedgerEvent, getLatestBalance_addBalanceUpdate]
      rfl

/-- Disbursed loan for the C5 witness. -/
def c5L : Loan :=
  { loan_id := "L1", offer_id := "o1", msisdn := "a", amount := 5,
    disbursed_at := some 0, repaid_at := none,
    status := LoanStatus.disbursed }

/-- Initial balance sample for the C5 witness. -/
def c5Bal : BalanceUpdate :=
  { msisdn := "a", session_id := none, balance := 2, timestamp := 0,
    consumption_rate_per_min := 1 }

/-- Store of the C5 witness: one disbursed loan and a balance history. -/
def c5Store : Store :=
  { loans := [c5L], balanceSnapshots := [("a", [c5Bal])] }

/-- Top-up event of the C5 witness. -/
def c5t : TopUp :=
  { msisdn := "a", amount := 20, timestamp := 99, channel := "online" }

/-- Witness for C5: the concrete disbursed loan is settled by the
top-up, no other loan is touched, and the balance nets out the loan. -/
theorem C5_processTopUp_witness :
    AtMostOneActiveLoan c5Store c5t.msisdn ∧
    ((processTopUp c5Store c5t "e0" "e1" "e2" 99).loans =
      c5Store.loans.map (fun x => if x.loan_id = c5L.loan_id then
        { c5L with repaid_at := some 99, status := LoanStatus.repaid }
        else x) ∧
    ((processTopUp c5Store c5t "e0" "e1" "e2" 99).getLatestBalance
        c5t.msisdn).map (fun b => b.balance) =
      some (((c5Store.getLatestBalance c5t.msisdn).map
        (fun b => b.balance)).getD 0 + (c5t.amount - c5L.amount))) := by
  have hL : AtMostOneActiveLoan c5Store c5t.msisdn := by
    intro l1 h1 l2 h2 _ _ _ _
    simp [c5Store] at h1 h2
    rw [h1, h2]
  exact ⟨hL, (C5_processTopUp_settlement c5Store c5t "e0" "e1" "e2" 99 hL).2
    c5L (by simp [c5Store]) (by rfl) (by rfl)⟩

/-! ## Claim C1 -/

/-- The post-disbursal state of the C1 failing trace: the subscriber's
offer is `disbursed` with its consent token still live (10-minute expiry
not reached), and the loan created for it is `disbursed`. This is
exactly the offer/loan state the normal flow leaves behind after
trigger, offer creation, SMS, link-open and accept-with-disbursal. -/
def c1Offer : Offer :=
  { offer_id := "o1", msisdn := "a", session_id := "s1", amount := 10,
    status := OfferStatus.disbursed, created_at := 1000, expires_at := 601000,
    reasons := [], model_decision_id := "d1", consent_token := some "tok",
    benefit_estimate := none, context_reasons := [] }

/-- The disbursed loan of the C1 failing trace. -/
def c1Loan : Loan :=
  { loan_id := "L1", offer_id := "o1", msisdn := "a", amount := 10,
    disbursed_at := some 4000, repaid_at := none,
    status := LoanStatus.disbursed }

/-- The store after the first full offer-accept-disburse round. -/
def c1Store : Store :=
  { offers := [c1Offer], loans := [c1Loan],
    balanceSnapshots := [("a",
      [{ msisdn := "a", session_id := none, balance := 12, timestamp := 4000,
         consumption_rate_per_min := 1 }])] }

/-- Claim C1 is violated by the code: in the post-disbursal state, one
`markLinkOpened` call on the still-valid consent token (the public
offer-view endpoint) resets the disbursed offer to `link_opened`
unguarded, after which a second token accept passes `acceptOffer`,
`disburseLoan` runs again, and the subscriber ends with TWO loans of
status `disbursed` — the at-most-one-active-loan invariant fails on a
state reachable through the listed operations. -/
theorem C1_counterexample_two_disbursed_loans :
    ((handleConsent (orchestratorMarkLinkOpened c1Store "tok" "e0" "e1" 5000)
        "tok" true "L2" "e2" "e3" "e4" "e5" "e6" 6000).1.loans.filter
      (fun l => l.msisdn = "a" ∧ Store.activeLoanStatus l.status)).length
      = 2 := by
  decide

end Airtime
